import Mathlib

set_option linter.unusedVariables false
set_option linter.unreachableTactic false
set_option linter.unnecessarySeqFocus false
set_option linter.unusedTactic false

/-!
Shallow embedding of the stagedef binary decoder of MKBViewer
(`src/stagedef/parser.rs` together with the object catalog under
`src/stagedef/objects/`).

Modelling conventions:
* The byte source is an in-memory cursor (`RState.buf`, `RState.pos`),
  matching `Cursor<Vec<u8>>`.  Reading `n` bytes succeeds exactly when
  `pos + n ≤ buf.length` and on failure leaves the cursor unchanged;
  seeking from the start always succeeds.
* `f32` values are kept as their raw 32-bit patterns (`Nat`); the decoder
  never computes with floats, it only moves them.
* `u32` arithmetic wraps modulo `2 ^ 32` where the source multiplies
  (`global_count * T::get_size()`); a debug build would abort on such an
  overflow instead, and either way the product is not the mathematical one.
* `Arc` identity of shared objects is modelled by an allocation counter
  `RState.nextAid`: `GlobalStagedefObject::new` stamps a fresh `aid`,
  handle clones keep it.
* the `warn!` diagnostics channel is modelled by `RState.warnings`.
* Rust `Result` becomes `Except String`; a decoder that must report its
  post-failure cursor (element decoders inside list reads) returns the
  state alongside the `Except`.
-/

/-- Byte order, a decode-time parameter threaded through every primitive read. -/
inductive BO
| be
| le
deriving DecidableEq, Repr

/-- Reader state: the byte buffer, the cursor, the allocation counter that
models `Arc` identity, and the accumulated diagnostics. -/
structure RState where
  buf : List Nat
  pos : Nat
  nextAid : Nat
  warnings : List String
deriving DecidableEq, Repr

/-- Read `n` raw bytes at the cursor, advancing it; fails (leaving the state
unchanged) when fewer than `n` bytes remain. -/
def readBytes (n : Nat) (s : RState) : Except String (List Nat × RState) :=
  if s.pos + n ≤ s.buf.length then
    .ok ((s.buf.drop s.pos).take n, { s with pos := s.pos + n })
  else
    .error "failed to fill whole buffer"

/-- Assemble a 16-bit value from two bytes under the given byte order. -/
def u16FromBytes (bo : BO) (bs : List Nat) : Nat :=
  match bo, bs with
  | BO.be, [b0, b1] => b0 * 256 + b1
  | BO.le, [b0, b1] => b1 * 256 + b0
  | _, _ => 0

/-- Assemble a 32-bit value from four bytes under the given byte order. -/
def u32FromBytes (bo : BO) (bs : List Nat) : Nat :=
  match bo, bs with
  | BO.be, [b0, b1, b2, b3] => ((b0 * 256 + b1) * 256 + b2) * 256 + b3
  | BO.le, [b0, b1, b2, b3] => ((b3 * 256 + b2) * 256 + b1) * 256 + b0
  | _, _ => 0

/-- Read one byte. -/
def readU8 (s : RState) : Except String (Nat × RState) :=
  match readBytes 1 s with
  | .error e => .error e
  | .ok (bs, s') => .ok (bs.headI, s')

/-- Read a 16-bit value under the given byte order. -/
def readU16 (bo : BO) (s : RState) : Except String (Nat × RState) :=
  match readBytes 2 s with
  | .error e => .error e
  | .ok (bs, s') => .ok (u16FromBytes bo bs, s')

/-- Read a 32-bit value under the given byte order. -/
def readU32 (bo : BO) (s : RState) : Except String (Nat × RState) :=
  match readBytes 4 s with
  | .error e => .error e
  | .ok (bs, s') => .ok (u32FromBytes bo bs, s')

/-- Read an `f32`, kept as its raw 32-bit pattern. -/
def readF32 (bo : BO) (s : RState) : Except String (Nat × RState) :=
  readU32 bo s

/-- A 3-component float vector (the source's `Vector3`; renamed because
Mathlib already has a `Vector3`); components are raw 32-bit patterns. -/
structure Vec3 where
  x : Nat
  y : Nat
  z : Nat
deriving DecidableEq, Repr

/-- A 3-component 16-bit vector (the source's `ShortVector3`), used for rotations. -/
structure ShortVec3 where
  x : Nat
  y : Nat
  z : Nat
deriving DecidableEq, Repr

/-- Mirror of `read_vec3`: three consecutive `f32` reads.  The state is
returned even on failure so that list reads can continue from the cursor a
failed element decode left behind. -/
def read_vec3 (bo : BO) (s : RState) : Except String Vec3 × RState :=
  match readF32 bo s with
  | .error e => (.error e, s)
  | .ok (x, s1) =>
    match readF32 bo s1 with
    | .error e => (.error e, s1)
    | .ok (y, s2) =>
      match readF32 bo s2 with
      | .error e => (.error e, s2)
      | .ok (z, s3) => (.ok ⟨x, y, z⟩, s3)

/-- Mirror of `read_vec3_short`: three consecutive `u16` reads. -/
def read_vec3_short (bo : BO) (s : RState) : Except String ShortVec3 × RState :=
  match readU16 bo s with
  | .error e => (.error e, s)
  | .ok (x, s1) =>
    match readU16 bo s1 with
    | .error e => (.error e, s1)
    | .ok (y, s2) =>
      match readU16 bo s2 with
      | .error e => (.error e, s2)
      | .ok (z, s3) => (.ok ⟨x, y, z⟩, s3)

/-- Mirror of the source's `FileOffset`: a tagged location value. -/
inductive FileOffset
| Unused
| OffsetOnly (offset : Nat)
| CountOffset (count : Nat) (offset : Nat)
deriving DecidableEq, Repr

/-- Mirror of `read_offset`: a single 32-bit absolute offset. -/
def read_offset (bo : BO) (s : RState) : Except String (FileOffset × RState) :=
  match readU32 bo s with
  | .error e => .error e
  | .ok (o, s') => .ok (FileOffset.OffsetOnly o, s')

/-- Mirror of `read_count_offset`: a 32-bit count followed by a 32-bit
absolute offset, normalized to `Unused` when either is zero. -/
def read_count_offset (bo : BO) (s : RState) : Except String (FileOffset × RState) :=
  match readU32 bo s with
  | .error e => .error e
  | .ok (count, s1) =>
    match readU32 bo s1 with
    | .error e => .error e
    | .ok (offset, s2) =>
      if count = 0 ∨ offset = 0 then .ok (FileOffset.Unused, s2)
      else .ok (FileOffset.CountOffset count offset, s2)

/-- Mirror of `try_seek`: seeking to `Unused` fails and leaves the state
unchanged; the other variants move the cursor. -/
def try_seek (offset : FileOffset) (s : RState) : Except String RState :=
  match offset with
  | FileOffset.Unused => .error "Attempted to seek to an unused value"
  | FileOffset.OffsetOnly o => .ok { s with pos := o }
  | FileOffset.CountOffset _ o => .ok { s with pos := o }

/-- Success of `readU8` advances the cursor by one within the buffer. -/
theorem readU8_ok_inv {s : RState} {b : Nat} {s' : RState}
    (h : readU8 s = .ok (b, s')) :
    s'.buf = s.buf ∧ s'.pos = s.pos + 1 ∧ s.pos < s.buf.length ∧
      s'.nextAid = s.nextAid ∧ s'.warnings = s.warnings := by
  unfold readU8 readBytes at h
  by_cases hc : s.pos + 1 ≤ s.buf.length
  · rw [if_pos hc] at h
    simp only [Except.ok.injEq, Prod.mk.injEq] at h
    obtain ⟨-, h2⟩ := h
    subst h2
    refine ⟨rfl, rfl, by omega, rfl, rfl⟩
  · rw [if_neg hc] at h
    simp at h

/-- Structural core of the name-scanning loop, on fuel: each iteration
reads one byte (advancing the cursor within the fixed buffer by one), so
`buf.length - pos` units of fuel are exactly enough; when fuel runs out
the cursor has reached the end of the buffer and the one further byte
read fails with the same end-of-buffer error the read itself would give. -/
def readNullTerminatedFuel : Nat → RState → Except String (List Nat) × RState
  | 0, s => (.error "failed to fill whole buffer", s)
  | Nat.succ f, s =>
    match readU8 s with
    | .error e => (.error e, s)
    | .ok (b, s') =>
      if b = 0 then (.ok [b], s')
      else
        match readNullTerminatedFuel f s' with
        | (.error e, s'') => (.error e, s'')
        | (.ok bs, s'') => (.ok (b :: bs), s'')

/-- Loop of `read_model_name_from_offset`: read bytes until (and including)
the first zero byte; the source pushes every byte it reads, the terminator
included. -/
def readNullTerminated (s : RState) : Except String (List Nat) × RState :=
  readNullTerminatedFuel (s.buf.length - s.pos) s

/-- Mirror of `read_model_name_from_offset`: read a 32-bit offset, jump to
it, collect bytes through the first NUL, then restore the cursor to just
after the offset field. -/
def read_model_name_from_offset (bo : BO) (s : RState) :
    Except String (List Nat) × RState :=
  match readU32 bo s with
  | .error e => (.error e, s)
  | .ok (name_offset, s1) =>
    let return_position := s1.pos
    match readNullTerminated { s1 with pos := name_offset } with
    | (.error e, s2) => (.error e, s2)
    | (.ok bs, s2) => (.ok bs, { s2 with pos := return_position })

/-- Mirror of `GlobalStagedefObject<T>`: a decoded record plus its list
index, under shared ownership.  `aid` models the `Arc` allocation identity:
two handles alias the same record exactly when their `aid`s agree. -/
structure GlobalStagedefObject (T : Type) where
  object : T
  aid : Nat
  index : Nat
deriving DecidableEq, Repr

/-- Re-number a list of shared handles with consecutive local indices
starting at `k` (the `local_reindex_value` counter of the source). -/
def reindexFrom {T : Type} (k : Nat) :
    List (GlobalStagedefObject T) → List (GlobalStagedefObject T)
  | [] => []
  | o :: rest => { o with index := k } :: reindexFrom (k + 1) rest

/-- Mirror of `try_get_offset_difference`: errors when the difference would
be negative.  (Both inputs come from 32-bit file fields, so the source's
`u32::try_from(..).unwrap()` conversions cannot abort on this path.) -/
def try_get_offset_difference (x y : Nat) : Except String Nat :=
  if y > x then .error "Resulting offset difference was negative"
  else .ok (x - y)

/-- Mirror of `get_global_objs_from_local_list`: decide whether a local
list aliases the global one and, if so, select and re-number the shared
handles.  `size` is `T::get_size()`.  Returns the optional selection
together with the `warn!` diagnostics the call emits. -/
def get_global_objs_from_local_list {T : Type} (size : Nat)
    (local_count : Nat) (local_offset : Nat) (global_co : FileOffset)
    (global_obj_list : List (GlobalStagedefObject T)) :
    Option (List (GlobalStagedefObject T)) × List String :=
  match global_co with
  | FileOffset.CountOffset global_count global_offset =>
    match try_get_offset_difference local_offset global_offset with
    | .ok diff =>
      let global_size := global_count * size % 2 ^ 32
      if diff < global_size then
        let global_start_index := diff / size
        (some (reindexFrom 0
          ((global_obj_list.filter
              (fun g => decide (global_start_index ≤ g.index))).take local_count)), [])
      else
        (none, ["Failed global object retrieval: local list larger than global list"])
    | .error _ =>
      (none, ["Failed global object retrieval: objects before list"])
  | _ =>
    (none, ["Failed global object retrieval: no global list"])

/-- Loop body of `read_stagedef_list`: decode `c` consecutive elements,
pushing a freshly allocated shared handle carrying the loop index for each
success and logging a diagnostic for each failure. -/
def readListAux {T : Type} (dec : RState → Except String T × RState) :
    Nat → Nat → RState → List (GlobalStagedefObject T) × RState
  | 0, _, s => ([], s)
  | Nat.succ c, i, s =>
    match dec s with
    | (.ok obj, s') =>
      let g : GlobalStagedefObject T := ⟨obj, s'.nextAid, i⟩
      let s'' := { s' with nextAid := s'.nextAid + 1 }
      let r := readListAux dec c (i + 1) s''
      (g :: r.1, r.2)
    | (.error e, s') =>
      readListAux dec c (i + 1) { s' with warnings := s'.warnings ++ [e] }

/-- Mirror of `read_stagedef_list`: read a global object list from a
count+offset location; anything else is reported as an error. -/
def read_stagedef_list {T : Type} (dec : RState → Except String T × RState)
    (offset : FileOffset) (s : RState) :
    Except String (List (GlobalStagedefObject T) × RState) :=
  match offset with
  | FileOffset.CountOffset c o => .ok (readListAux dec c 0 { s with pos := o })
  | _ => .error "No object list was read"

/-- Mirror of `read_local_object_list`: read the header's count+offset
field at `offset`, then either re-expose a slice of the global list or
fall back to decoding a fresh local list. -/
def read_local_object_list {T : Type} (size : Nat)
    (dec : RState → Except String T × RState) (bo : BO)
    (offset global_list_offset : FileOffset)
    (global_list : List (GlobalStagedefObject T)) (s : RState) :
    Except String (List (GlobalStagedefObject T) × RState) :=
  match try_seek offset s with
  | .error _ => .error "No object list was read - could not seek to given offset"
  | .ok s1 =>
    match read_count_offset bo s1 with
    | .error e => .error e
    | .ok (local_count_offset, s2) =>
      match local_count_offset with
      | FileOffset.CountOffset local_count local_offset =>
        let s3 : RState := { s2 with pos := local_offset }
        let gr := get_global_objs_from_local_list size local_count local_offset
          global_list_offset global_list
        let s4 : RState := { s3 with warnings := s3.warnings ++ gr.2 }
        match gr.1 with
        | some objs => .ok (objs, s4)
        | none =>
          read_stagedef_list dec (FileOffset.CountOffset local_count local_offset) s4
      | _ => .error "No object list was read - no local offset"

/-- Adapt an `Except`-shaped read (which never moves the cursor on failure)
to the pair shape that also reports the post-failure state. -/
def pairOf {α : Type} (read : RState → Except String (α × RState)) (s : RState) :
    Except String α × RState :=
  match read s with
  | .error e => (.error e, s)
  | .ok (v, s') => (.ok v, s')

/-- On-disk element sizes declared by the object catalog. -/
def GOAL_SIZE : Nat := 0x14

/-- On-disk size of a bumper record. -/
def BUMPER_SIZE : Nat := 0x20

/-- On-disk size of a jamabar record. -/
def JAMABAR_SIZE : Nat := 0x20

/-- On-disk size of a banana record. -/
def BANANA_SIZE : Nat := 0x10

/-- On-disk size of a cone collision record. -/
def CONE_COL_SIZE : Nat := 0x20

/-- On-disk size of a sphere collision record. -/
def SPHERE_COL_SIZE : Nat := 0x14

/-- On-disk size of a cylinder collision record. -/
def CYL_COL_SIZE : Nat := 0x1C

/-- On-disk size of a fallout volume record. -/
def FALLOUT_VOLUME_SIZE : Nat := 0x20

/-- On-disk size of a background model record. -/
def BACKGROUND_MODEL_SIZE : Nat := 0x38

/-- On-disk stride of a collision header. -/
def COLLISION_HEADER_SIZE : Nat := 0x49C

/-- Goal colour, parsed from a byte via `FromPrimitive`. -/
inductive GoalType
| Blue
| Green
| Red
deriving DecidableEq, Repr

/-- Partial byte-to-`GoalType` conversion (`FromPrimitive::from_u8`). -/
def goalTypeFromU8 (b : Nat) : Option GoalType :=
  if b = 0 then some GoalType.Blue
  else if b = 1 then some GoalType.Green
  else if b = 2 then some GoalType.Red
  else none

/-- A goal record. -/
structure Goal where
  position : Vec3
  rotation : ShortVec3
  goal_type : GoalType
deriving DecidableEq, Repr

/-- Mirror of `Goal::try_from_reader`. -/
def Goal.try_from_reader (bo : BO) (s : RState) : Except String Goal × RState :=
  match read_vec3 bo s with
  | (.error e, s') => (.error e, s')
  | (.ok position, s1) =>
  match read_vec3_short bo s1 with
  | (.error e, s') => (.error e, s')
  | (.ok rotation, s2) =>
  match readU8 s2 with
  | .error e => (.error e, s2)
  | .ok (tb, s3) =>
  match goalTypeFromU8 tb with
  | none => (.error "Failed to parse goal type", s3)
  | some goal_type =>
  match readU8 s3 with
  | .error e => (.error e, s3)
  | .ok (_, s4) => (.ok ⟨position, rotation, goal_type⟩, s4)

/-- A bumper record. -/
structure Bumper where
  position : Vec3
  rotation : ShortVec3
  scale : Vec3
deriving DecidableEq, Repr

/-- Mirror of `Bumper::try_from_reader`. -/
def Bumper.try_from_reader (bo : BO) (s : RState) : Except String Bumper × RState :=
  match read_vec3 bo s with
  | (.error e, s') => (.error e, s')
  | (.ok position, s1) =>
  match read_vec3_short bo s1 with
  | (.error e, s') => (.error e, s')
  | (.ok rotation, s2) =>
  match readU8 s2 with
  | .error e => (.error e, s2)
  | .ok (_, s3) =>
  match read_vec3 bo s3 with
  | (.error e, s') => (.error e, s')
  | (.ok scale, s4) => (.ok ⟨position, rotation, scale⟩, s4)

/-- A jamabar record. -/
structure Jamabar where
  position : Vec3
  rotation : ShortVec3
  scale : Vec3
deriving DecidableEq, Repr

/-- Mirror of `Jamabar::try_from_reader`. -/
def Jamabar.try_from_reader (bo : BO) (s : RState) : Except String Jamabar × RState :=
  match read_vec3 bo s with
  | (.error e, s') => (.error e, s')
  | (.ok position, s1) =>
  match read_vec3_short bo s1 with
  | (.error e, s') => (.error e, s')
  | (.ok rotation, s2) =>
  match readU8 s2 with
  | .error e => (.error e, s2)
  | .ok (_, s3) =>
  match read_vec3 bo s3 with
  | (.error e, s') => (.error e, s')
  | (.ok scale, s4) => (.ok ⟨position, rotation, scale⟩, s4)

/-- Banana kind. -/
inductive BananaType
| Single
| Bunch
deriving DecidableEq, Repr

/-- A banana record. -/
structure Banana where
  position : Vec3
  banana_type : BananaType
deriving DecidableEq, Repr

/-- Modelled from the spec: the source declares `Banana` (a position plus a
banana type, `BANANA_SIZE = 0x10` bytes on disk) but its `StageDefParsable`
impl is missing from the tree; per the data model of §3 the record decodes
as the position vector followed by a 32-bit type field (0 = Single,
1 = Bunch, anything else a decode failure). -/
def Banana.try_from_reader (bo : BO) (s : RState) : Except String Banana × RState :=
  match read_vec3 bo s with
  | (.error e, s') => (.error e, s')
  | (.ok position, s1) =>
  match readU32 bo s1 with
  | .error e => (.error e, s1)
  | .ok (tb, s2) =>
  if tb = 0 then (.ok ⟨position, BananaType.Single⟩, s2)
  else if tb = 1 then (.ok ⟨position, BananaType.Bunch⟩, s2)
  else (.error "Failed to parse banana type", s2)

/-- A cone collision volume record. -/
structure ConeCollisionObject where
  position : Vec3
  rotation : ShortVec3
  radius_1 : Nat
  height : Nat
  radius_2 : Nat
deriving DecidableEq, Repr

/-- Mirror of `ConeCollisionObject::try_from_reader`. -/
def ConeCollisionObject.try_from_reader (bo : BO) (s : RState) :
    Except String ConeCollisionObject × RState :=
  match read_vec3 bo s with
  | (.error e, s') => (.error e, s')
  | (.ok position, s1) =>
  match read_vec3_short bo s1 with
  | (.error e, s') => (.error e, s')
  | (.ok rotation, s2) =>
  match readU8 s2 with
  | .error e => (.error e, s2)
  | .ok (_, s3) =>
  match readF32 bo s3 with
  | .error e => (.error e, s3)
  | .ok (radius_1, s4) =>
  match readF32 bo s4 with
  | .error e => (.error e, s4)
  | .ok (height, s5) =>
  match readF32 bo s5 with
  | .error e => (.error e, s5)
  | .ok (radius_2, s6) => (.ok ⟨position, rotation, radius_1, height, radius_2⟩, s6)

/-- A sphere collision volume record. -/
structure SphereCollisionObject where
  position : Vec3
  radius : Nat
  unk0x10 : Nat
deriving DecidableEq, Repr

/-- Mirror of `SphereCollisionObject::try_from_reader`. -/
def SphereCollisionObject.try_from_reader (bo : BO) (s : RState) :
    Except String SphereCollisionObject × RState :=
  match read_vec3 bo s with
  | (.error e, s') => (.error e, s')
  | (.ok position, s1) =>
  match readF32 bo s1 with
  | .error e => (.error e, s1)
  | .ok (radius, s2) =>
  match readU32 bo s2 with
  | .error e => (.error e, s2)
  | .ok (unk0x10, s3) => (.ok ⟨position, radius, unk0x10⟩, s3)

/-- A cylinder collision volume record. -/
structure CylinderCollision where
  position : Vec3
  radius : Nat
  height : Nat
  rotation : ShortVec3
  unk0x1a : Nat
deriving DecidableEq, Repr

/-- Mirror of `CylinderCollision::try_from_reader`. -/
def CylinderCollision.try_from_reader (bo : BO) (s : RState) :
    Except String CylinderCollision × RState :=
  match read_vec3 bo s with
  | (.error e, s') => (.error e, s')
  | (.ok position, s1) =>
  match readF32 bo s1 with
  | .error e => (.error e, s1)
  | .ok (radius, s2) =>
  match readF32 bo s2 with
  | .error e => (.error e, s2)
  | .ok (height, s3) =>
  match read_vec3_short bo s3 with
  | (.error e, s') => (.error e, s')
  | (.ok rotation, s4) =>
  match readU16 bo s4 with
  | .error e => (.error e, s4)
  | .ok (unk0x1a, s5) => (.ok ⟨position, radius, height, rotation, unk0x1a⟩, s5)

/-- A fallout volume record. -/
structure FalloutVolume where
  position : Vec3
  size : Vec3
  rotation : ShortVec3
  unk0x1e : Nat
deriving DecidableEq, Repr

/-- Mirror of `FalloutVolume::try_from_reader`. -/
def FalloutVolume.try_from_reader (bo : BO) (s : RState) :
    Except String FalloutVolume × RState :=
  match read_vec3 bo s with
  | (.error e, s') => (.error e, s')
  | (.ok position, s1) =>
  match read_vec3 bo s1 with
  | (.error e, s') => (.error e, s')
  | (.ok size, s2) =>
  match read_vec3_short bo s2 with
  | (.error e, s') => (.error e, s')
  | (.ok rotation, s3) =>
  match readU16 bo s3 with
  | .error e => (.error e, s3)
  | .ok (unk0x1e, s4) => (.ok ⟨position, size, rotation, unk0x1e⟩, s4)

/-- A background model record; the name is the byte sequence collected by
`read_model_name_from_offset`. -/
structure BackgroundModel where
  unk_0x0 : Nat
  model_name : List Nat
  unk_0x8 : Nat
  position : Vec3
  rotation : ShortVec3
  unk_0x1e : Nat
  scale : Vec3
deriving DecidableEq, Repr

/-- Mirror of `BackgroundModel::try_from_reader` (the trailing
`assert!` on the cursor position always holds for these fixed-size reads
and is not modelled). -/
def BackgroundModel.try_from_reader (bo : BO) (s : RState) :
    Except String BackgroundModel × RState :=
  match readU32 bo s with
  | .error e => (.error e, s)
  | .ok (unk_0x0, s1) =>
  match read_model_name_from_offset bo s1 with
  | (.error e, s') => (.error e, s')
  | (.ok model_name, s2) =>
  match readU32 bo s2 with
  | .error e => (.error e, s2)
  | .ok (unk_0x8, s3) =>
  match read_vec3 bo s3 with
  | (.error e, s') => (.error e, s')
  | (.ok position, s4) =>
  match read_vec3_short bo s4 with
  | (.error e, s') => (.error e, s')
  | (.ok rotation, s5) =>
  match readU16 bo s5 with
  | .error e => (.error e, s5)
  | .ok (unk_0x1e, s6) =>
  match read_vec3 bo s6 with
  | (.error e, s') => (.error e, s')
  | (.ok scale, s7) =>
  match readU32 bo s7 with
  | .error e => (.error e, s7)
  | .ok (_, s8) =>
  match readU32 bo s8 with
  | .error e => (.error e, s8)
  | .ok (_, s9) =>
  match readU32 bo s9 with
  | .error e => (.error e, s9)
  | .ok (_, s10) =>
    (.ok ⟨unk_0x0, model_name, unk_0x8, position, rotation, unk_0x1e, scale⟩, s10)

/-- Supported game variants. -/
inductive Game
| SMB1
| SMB2
| SMBDX
deriving DecidableEq, Repr

/-- Mirror of `StageDefFileHeaderFormat`: where each top-level field's
location data lives in the file. -/
structure StageDefFileHeaderFormat where
  magic_number_1_offset : FileOffset
  magic_number_2_offset : FileOffset
  collision_header_list_offset : FileOffset
  start_position_ptr_offset : FileOffset
  fallout_position_ptr_offset : FileOffset
  goal_list_offset : FileOffset
  bumper_list_offset : FileOffset
  jamabar_list_offset : FileOffset
  banana_list_offset : FileOffset
  cone_col_list_offset : FileOffset
  sphere_col_list_offset : FileOffset
  cyl_col_list_offset : FileOffset
  fallout_vol_list_offset : FileOffset
  bg_model_list_offset : FileOffset
  fg_model_list_offset : FileOffset
  reflective_model_list_offset : FileOffset
  model_instance_list_offset : FileOffset
  model_ptr_a_list_offset : FileOffset
  model_ptr_b_list_offset : FileOffset
  switch_list_offset : FileOffset
  fog_anim_ptr_offset : FileOffset
  wormhole_list_offset : FileOffset
  fog_ptr_offset : FileOffset
  mystery_3_ptr_offset : FileOffset
deriving DecidableEq, Repr

/-- The `Default` instance of the file header format: every field `Unused`. -/
def defaultFileHeaderFormat : StageDefFileHeaderFormat where
  magic_number_1_offset := FileOffset.Unused
  magic_number_2_offset := FileOffset.Unused
  collision_header_list_offset := FileOffset.Unused
  start_position_ptr_offset := FileOffset.Unused
  fallout_position_ptr_offset := FileOffset.Unused
  goal_list_offset := FileOffset.Unused
  bumper_list_offset := FileOffset.Unused
  jamabar_list_offset := FileOffset.Unused
  banana_list_offset := FileOffset.Unused
  cone_col_list_offset := FileOffset.Unused
  sphere_col_list_offset := FileOffset.Unused
  cyl_col_list_offset := FileOffset.Unused
  fallout_vol_list_offset := FileOffset.Unused
  bg_model_list_offset := FileOffset.Unused
  fg_model_list_offset := FileOffset.Unused
  reflective_model_list_offset := FileOffset.Unused
  model_instance_list_offset := FileOffset.Unused
  model_ptr_a_list_offset := FileOffset.Unused
  model_ptr_b_list_offset := FileOffset.Unused
  switch_list_offset := FileOffset.Unused
  fog_anim_ptr_offset := FileOffset.Unused
  wormhole_list_offset := FileOffset.Unused
  fog_ptr_offset := FileOffset.Unused
  mystery_3_ptr_offset := FileOffset.Unused

/-- Mirror of `SMB2_FILE_HEADER_FORMAT`: the fixed absolute offsets of the
SMB2 file header schema. -/
def SMB2_FILE_HEADER_FORMAT : StageDefFileHeaderFormat where
  magic_number_1_offset := FileOffset.OffsetOnly 0x0
  magic_number_2_offset := FileOffset.OffsetOnly 0x4
  collision_header_list_offset := FileOffset.OffsetOnly 0x8
  start_position_ptr_offset := FileOffset.OffsetOnly 0x10
  fallout_position_ptr_offset := FileOffset.OffsetOnly 0x14
  goal_list_offset := FileOffset.OffsetOnly 0x18
  bumper_list_offset := FileOffset.OffsetOnly 0x20
  jamabar_list_offset := FileOffset.OffsetOnly 0x28
  banana_list_offset := FileOffset.OffsetOnly 0x30
  cone_col_list_offset := FileOffset.OffsetOnly 0x38
  sphere_col_list_offset := FileOffset.OffsetOnly 0x40
  cyl_col_list_offset := FileOffset.OffsetOnly 0x48
  fallout_vol_list_offset := FileOffset.OffsetOnly 0x50
  bg_model_list_offset := FileOffset.OffsetOnly 0x58
  fg_model_list_offset := FileOffset.OffsetOnly 0x60
  reflective_model_list_offset := FileOffset.OffsetOnly 0x70
  model_instance_list_offset := FileOffset.OffsetOnly 0x84
  model_ptr_a_list_offset := FileOffset.OffsetOnly 0x90
  model_ptr_b_list_offset := FileOffset.OffsetOnly 0x98
  switch_list_offset := FileOffset.OffsetOnly 0xA8
  fog_anim_ptr_offset := FileOffset.OffsetOnly 0xB0
  wormhole_list_offset := FileOffset.OffsetOnly 0xB4
  fog_ptr_offset := FileOffset.OffsetOnly 0xBC
  mystery_3_ptr_offset := FileOffset.OffsetOnly 0xD4

/-- One step of `read_file_header_offsets` for a count+offset field:
`if try_seek(default).is_ok() { read_count_offset? }`, the field keeping
its `Unused` default when the seek is refused. -/
def readFieldCO (bo : BO) (defOff : FileOffset) (s : RState) :
    Except String (FileOffset × RState) :=
  match try_seek defOff s with
  | .error _ => .ok (FileOffset.Unused, s)
  | .ok s1 => read_count_offset bo s1

/-- One step of `read_file_header_offsets` for a single-offset field. -/
def readFieldOff (bo : BO) (defOff : FileOffset) (s : RState) :
    Except String (FileOffset × RState) :=
  match try_seek defOff s with
  | .error _ => .ok (FileOffset.Unused, s)
  | .ok s1 => read_offset bo s1

/-- Mirror of `read_file_header_offsets`: pick the schema table for the
game variant (the `Game::SMB1` arm is `unimplemented!()`, a panic that
aborts the decode, modelled as a structural error; `SMB2` and `SMBDX`
share the SMB2 table), then read every dynamic count/offset value in
source order.  The sphere-collision field is never read by the source and
therefore stays at its `Unused` default. -/
def read_file_header_offsets (game : Game) (bo : BO) (s : RState) :
    Except String (StageDefFileHeaderFormat × RState) :=
  match game with
  | Game.SMB1 => .error "not implemented"
  | Game.SMB2 | Game.SMBDX =>
    match readFieldCO bo SMB2_FILE_HEADER_FORMAT.collision_header_list_offset s with
    | .error e => .error e
    | .ok (collision_header_co, s1) =>
    match readFieldOff bo SMB2_FILE_HEADER_FORMAT.start_position_ptr_offset s1 with
    | .error e => .error e
    | .ok (start_position_off, s2) =>
    match readFieldOff bo SMB2_FILE_HEADER_FORMAT.fallout_position_ptr_offset s2 with
    | .error e => .error e
    | .ok (fallout_position_off, s3) =>
    match readFieldCO bo SMB2_FILE_HEADER_FORMAT.goal_list_offset s3 with
    | .error e => .error e
    | .ok (goal_co, s4) =>
    match readFieldCO bo SMB2_FILE_HEADER_FORMAT.bumper_list_offset s4 with
    | .error e => .error e
    | .ok (bumper_co, s5) =>
    match readFieldCO bo SMB2_FILE_HEADER_FORMAT.jamabar_list_offset s5 with
    | .error e => .error e
    | .ok (jamabar_co, s6) =>
    match readFieldCO bo SMB2_FILE_HEADER_FORMAT.banana_list_offset s6 with
    | .error e => .error e
    | .ok (banana_co, s7) =>
    match readFieldCO bo SMB2_FILE_HEADER_FORMAT.cone_col_list_offset s7 with
    | .error e => .error e
    | .ok (cone_co, s8) =>
    match readFieldCO bo SMB2_FILE_HEADER_FORMAT.cyl_col_list_offset s8 with
    | .error e => .error e
    | .ok (cyl_co, s9) =>
    match readFieldCO bo SMB2_FILE_HEADER_FORMAT.fallout_vol_list_offset s9 with
    | .error e => .error e
    | .ok (fallout_vol_co, s10) =>
    match readFieldCO bo SMB2_FILE_HEADER_FORMAT.bg_model_list_offset s10 with
    | .error e => .error e
    | .ok (bg_model_co, s11) =>
    match readFieldCO bo SMB2_FILE_HEADER_FORMAT.fg_model_list_offset s11 with
    | .error e => .error e
    | .ok (fg_model_co, s12) =>
    match readFieldCO bo SMB2_FILE_HEADER_FORMAT.reflective_model_list_offset s12 with
    | .error e => .error e
    | .ok (reflective_model_co, s13) =>
    match readFieldCO bo SMB2_FILE_HEADER_FORMAT.model_instance_list_offset s13 with
    | .error e => .error e
    | .ok (model_instance_co, s14) =>
    match readFieldCO bo SMB2_FILE_HEADER_FORMAT.model_ptr_a_list_offset s14 with
    | .error e => .error e
    | .ok (model_ptr_a_co, s15) =>
    match readFieldCO bo SMB2_FILE_HEADER_FORMAT.model_ptr_b_list_offset s15 with
    | .error e => .error e
    | .ok (model_ptr_b_co, s16) =>
    match readFieldCO bo SMB2_FILE_HEADER_FORMAT.switch_list_offset s16 with
    | .error e => .error e
    | .ok (switch_co, s17) =>
    match readFieldOff bo SMB2_FILE_HEADER_FORMAT.fog_anim_ptr_offset s17 with
    | .error e => .error e
    | .ok (fog_anim_off, s18) =>
    match readFieldCO bo SMB2_FILE_HEADER_FORMAT.wormhole_list_offset s18 with
    | .error e => .error e
    | .ok (wormhole_co, s19) =>
    match readFieldOff bo SMB2_FILE_HEADER_FORMAT.fog_ptr_offset s19 with
    | .error e => .error e
    | .ok (fog_off, s20) =>
    match readFieldOff bo SMB2_FILE_HEADER_FORMAT.mystery_3_ptr_offset s20 with
    | .error e => .error e
    | .ok (mystery_3_off, s21) =>
      .ok ({ defaultFileHeaderFormat with
        magic_number_1_offset := SMB2_FILE_HEADER_FORMAT.magic_number_1_offset
        magic_number_2_offset := SMB2_FILE_HEADER_FORMAT.magic_number_2_offset
        collision_header_list_offset := collision_header_co
        start_position_ptr_offset := start_position_off
        fallout_position_ptr_offset := fallout_position_off
        goal_list_offset := goal_co
        bumper_list_offset := bumper_co
        jamabar_list_offset := jamabar_co
        banana_list_offset := banana_co
        cone_col_list_offset := cone_co
        cyl_col_list_offset := cyl_co
        fallout_vol_list_offset := fallout_vol_co
        bg_model_list_offset := bg_model_co
        fg_model_list_offset := fg_model_co
        reflective_model_list_offset := reflective_model_co
        model_instance_list_offset := model_instance_co
        model_ptr_a_list_offset := model_ptr_a_co
        model_ptr_b_list_offset := model_ptr_b_co
        switch_list_offset := switch_co
        fog_anim_ptr_offset := fog_anim_off
        wormhole_list_offset := wormhole_co
        fog_ptr_offset := fog_off
        mystery_3_ptr_offset := mystery_3_off }, s21)

/-- Mirror of `StageDefCollisionHeaderFormat`: relative field locations
resolved against a collision header's start address. -/
structure StageDefCollisionHeaderFormat where
  center_of_rotation_offset : FileOffset
  initial_rotation_offset : FileOffset
  animation_type_offset : FileOffset
  animation_header_ptr_offset : FileOffset
  conveyor_vector_offset : FileOffset
  collision_triangle_list_offset : FileOffset
  collision_grid_triangle_list_offset : FileOffset
  collision_grid_start_x_offset : FileOffset
  collision_grid_start_z_offset : FileOffset
  collision_grid_step_x_offset : FileOffset
  collision_grid_step_z_offset : FileOffset
  collision_grid_step_x_count_offset : FileOffset
  collision_grid_step_z_count_offset : FileOffset
  goal_list_offset : FileOffset
  bumper_list_offset : FileOffset
  jamabar_list_offset : FileOffset
  banana_list_offset : FileOffset
  cone_col_list_offset : FileOffset
  sphere_col_list_offset : FileOffset
  cyl_col_list_offset : FileOffset
  fallout_vol_list_offset : FileOffset
  reflective_model_list_offset : FileOffset
  model_instance_list_offset : FileOffset
  model_ptr_b_list_offset : FileOffset
  unk0x9c_offset : FileOffset
  unk0xa0_offset : FileOffset
  animation_id_offset : FileOffset
  unk0xa6_offset : FileOffset
  switch_list_offset : FileOffset
  unk0xb0_offset : FileOffset
  mystery_5_offset : FileOffset
  seesaw_sensitivity_offset : FileOffset
  seesaw_friction_offset : FileOffset
  seesaw_spring_offset : FileOffset
  wormhole_list_offset : FileOffset
  animation_state_init_offset : FileOffset
  unk0xd0_offset : FileOffset
  animation_loop_point_offset : FileOffset
  texture_scroll_ptr_offset : FileOffset
deriving DecidableEq, Repr

/-- Mirror of `StageDefCollisionHeaderFormat::new`.  The source matches the
game against a lone irrefutable binding pattern (`SMB2 => ...`), so every
variant resolves to the same SMB2 relative layout. -/
def StageDefCollisionHeaderFormat.new (game : Game) (header_start : Nat) :
    StageDefCollisionHeaderFormat :=
  match game with
  | _ =>
    { center_of_rotation_offset := FileOffset.OffsetOnly (header_start + 0x0)
      initial_rotation_offset := FileOffset.OffsetOnly (header_start + 0xC)
      animation_type_offset := FileOffset.OffsetOnly (header_start + 0x12)
      animation_header_ptr_offset := FileOffset.OffsetOnly (header_start + 0x14)
      conveyor_vector_offset := FileOffset.OffsetOnly (header_start + 0x18)
      collision_triangle_list_offset := FileOffset.OffsetOnly (header_start + 0x24)
      collision_grid_triangle_list_offset := FileOffset.OffsetOnly (header_start + 0x28)
      collision_grid_start_x_offset := FileOffset.OffsetOnly (header_start + 0x2C)
      collision_grid_start_z_offset := FileOffset.OffsetOnly (header_start + 0x30)
      collision_grid_step_x_offset := FileOffset.OffsetOnly (header_start + 0x34)
      collision_grid_step_z_offset := FileOffset.OffsetOnly (header_start + 0x38)
      collision_grid_step_x_count_offset := FileOffset.OffsetOnly (header_start + 0x3C)
      collision_grid_step_z_count_offset := FileOffset.OffsetOnly (header_start + 0x40)
      goal_list_offset := FileOffset.OffsetOnly (header_start + 0x44)
      bumper_list_offset := FileOffset.OffsetOnly (header_start + 0x4C)
      jamabar_list_offset := FileOffset.OffsetOnly (header_start + 0x54)
      banana_list_offset := FileOffset.OffsetOnly (header_start + 0x5C)
      cone_col_list_offset := FileOffset.OffsetOnly (header_start + 0x64)
      sphere_col_list_offset := FileOffset.OffsetOnly (header_start + 0x6C)
      cyl_col_list_offset := FileOffset.OffsetOnly (header_start + 0x74)
      fallout_vol_list_offset := FileOffset.OffsetOnly (header_start + 0x7C)
      reflective_model_list_offset := FileOffset.OffsetOnly (header_start + 0x84)
      model_instance_list_offset := FileOffset.OffsetOnly (header_start + 0x8C)
      model_ptr_b_list_offset := FileOffset.OffsetOnly (header_start + 0x94)
      unk0x9c_offset := FileOffset.OffsetOnly (header_start + 0x9C)
      unk0xa0_offset := FileOffset.OffsetOnly (header_start + 0xA0)
      animation_id_offset := FileOffset.OffsetOnly (header_start + 0xA4)
      unk0xa6_offset := FileOffset.OffsetOnly (header_start + 0xA6)
      switch_list_offset := FileOffset.OffsetOnly (header_start + 0xA8)
      unk0xb0_offset := FileOffset.OffsetOnly (header_start + 0xB0)
      mystery_5_offset := FileOffset.OffsetOnly (header_start + 0xB4)
      seesaw_sensitivity_offset := FileOffset.OffsetOnly (header_start + 0xB8)
      seesaw_friction_offset := FileOffset.OffsetOnly (header_start + 0xBC)
      seesaw_spring_offset := FileOffset.OffsetOnly (header_start + 0xC0)
      wormhole_list_offset := FileOffset.OffsetOnly (header_start + 0xC4)
      animation_state_init_offset := FileOffset.OffsetOnly (header_start + 0xCC)
      unk0xd0_offset := FileOffset.OffsetOnly (header_start + 0xD0)
      animation_loop_point_offset := FileOffset.OffsetOnly (header_start + 0xD4)
      texture_scroll_ptr_offset := FileOffset.OffsetOnly (header_start + 0xD8) }

/-- The singular-field pattern of `read_stagedef` and
`read_collision_header`: `if try_seek(off).is_ok() { field = read? }` —
a refused seek keeps the default, a failed read aborts the decode. -/
def readSingular {α : Type} (read : RState → Except String α × RState)
    (off : FileOffset) (dflt : α) (s : RState) : Except String (α × RState) :=
  match try_seek off s with
  | .error _ => .ok (dflt, s)
  | .ok s1 =>
    match read s1 with
    | (.error e, _) => .error e
    | (.ok v, s2) => .ok (v, s2)

/-- The section pattern of `read_stagedef`:
`if let Ok(v) = read_stagedef_list(..) { field = v }` — any error leaves
the field at its default (the empty list).  The error paths of
`read_stagedef_list` do not move the cursor, so keeping the pre-call state
is exact. -/
def readSectionList {T : Type} (dec : RState → Except String T × RState)
    (off : FileOffset) (s : RState) : List (GlobalStagedefObject T) × RState :=
  match read_stagedef_list dec off s with
  | .ok (v, s') => (v, s')
  | .error _ => ([], s)

/-- The local-list pattern of `read_collision_header`:
`if let Ok(v) = read_local_object_list(..) { field = v }`.  On the error
paths the source's cursor may sit after the failed field read, but every
subsequent operation re-seeks to an absolute offset, so keeping the
pre-call state is observationally exact. -/
def readLocalField {T : Type} (size : Nat)
    (dec : RState → Except String T × RState) (bo : BO)
    (off goff : FileOffset) (glist : List (GlobalStagedefObject T))
    (s : RState) : List (GlobalStagedefObject T) × RState :=
  match read_local_object_list size dec bo off goff glist s with
  | .ok (v, s') => (v, s')
  | .error _ => ([], s)

/-- Mirror of `CollisionHeader` (the fields the source currently decodes). -/
structure CollisionHeader where
  center_of_rotation_position : Vec3
  conveyor_vector : Vec3
  goals : List (GlobalStagedefObject Goal)
  bumpers : List (GlobalStagedefObject Bumper)
  jamabars : List (GlobalStagedefObject Jamabar)
  bananas : List (GlobalStagedefObject Banana)
  cone_collisions : List (GlobalStagedefObject ConeCollisionObject)
  sphere_collisions : List (GlobalStagedefObject SphereCollisionObject)
  cylinder_collisions : List (GlobalStagedefObject CylinderCollision)
  fallout_volumes : List (GlobalStagedefObject FalloutVolume)
  background_models : List (GlobalStagedefObject BackgroundModel)
deriving DecidableEq, Repr

/-- Mirror of `StageDef`: the root object graph. -/
structure StageDef where
  magic_number_1 : Nat
  magic_number_2 : Nat
  start_position : Vec3
  start_rotation : ShortVec3
  fallout_level : Nat
  collision_headers : List CollisionHeader
  goals : List (GlobalStagedefObject Goal)
  bumpers : List (GlobalStagedefObject Bumper)
  jamabars : List (GlobalStagedefObject Jamabar)
  bananas : List (GlobalStagedefObject Banana)
  cone_collisions : List (GlobalStagedefObject ConeCollisionObject)
  sphere_collisions : List (GlobalStagedefObject SphereCollisionObject)
  cylinder_collisions : List (GlobalStagedefObject CylinderCollision)
  fallout_volumes : List (GlobalStagedefObject FalloutVolume)
  background_models : List (GlobalStagedefObject BackgroundModel)
deriving DecidableEq, Repr

/-- Mirror of `read_collision_header`: resolve the relative schema at the
header's start address, read the singular center-of-rotation field, then
reconcile every local object list against the already-populated globals;
the background-model list is re-read from the file header's global
location. -/
def read_collision_header (game : Game) (bo : BO)
    (fmt : StageDefFileHeaderFormat) (sd : StageDef) (offset : Nat)
    (s : RState) : Except String (CollisionHeader × RState) :=
  let cf := StageDefCollisionHeaderFormat.new game offset
  match readSingular (read_vec3 bo) cf.center_of_rotation_offset ⟨0, 0, 0⟩ s with
  | .error e => .error e
  | .ok (center, s1) =>
  let goalsR := readLocalField GOAL_SIZE (Goal.try_from_reader bo) bo
    cf.goal_list_offset fmt.goal_list_offset sd.goals s1
  let bumpersR := readLocalField BUMPER_SIZE (Bumper.try_from_reader bo) bo
    cf.bumper_list_offset fmt.bumper_list_offset sd.bumpers goalsR.2
  let jamabarsR := readLocalField JAMABAR_SIZE (Jamabar.try_from_reader bo) bo
    cf.jamabar_list_offset fmt.jamabar_list_offset sd.jamabars bumpersR.2
  let bananasR := readLocalField BANANA_SIZE (Banana.try_from_reader bo) bo
    cf.banana_list_offset fmt.banana_list_offset sd.bananas jamabarsR.2
  let conesR := readLocalField CONE_COL_SIZE (ConeCollisionObject.try_from_reader bo) bo
    cf.cone_col_list_offset fmt.cone_col_list_offset sd.cone_collisions bananasR.2
  let spheresR := readLocalField SPHERE_COL_SIZE (SphereCollisionObject.try_from_reader bo) bo
    cf.sphere_col_list_offset fmt.sphere_col_list_offset sd.sphere_collisions conesR.2
  let cylsR := readLocalField CYL_COL_SIZE (CylinderCollision.try_from_reader bo) bo
    cf.cyl_col_list_offset fmt.cyl_col_list_offset sd.cylinder_collisions spheresR.2
  let falloutsR := readLocalField FALLOUT_VOLUME_SIZE (FalloutVolume.try_from_reader bo) bo
    cf.fallout_vol_list_offset fmt.fallout_vol_list_offset sd.fallout_volumes cylsR.2
  let bgsR := readSectionList (BackgroundModel.try_from_reader bo)
    fmt.bg_model_list_offset falloutsR.2
  .ok ({ center_of_rotation_position := center
         conveyor_vector := ⟨0, 0, 0⟩
         goals := goalsR.1
         bumpers := bumpersR.1
         jamabars := jamabarsR.1
         bananas := bananasR.1
         cone_collisions := conesR.1
         sphere_collisions := spheresR.1
         cylinder_collisions := cylsR.1
         fallout_volumes := falloutsR.1
         background_models := bgsR.1 }, bgsR.2)

/-- The collision-header loop of `read_stagedef`: seek to
`base + COLLISION_HEADER_SIZE * i` (a 32-bit product) and read each header,
aborting the whole decode on the first failure. -/
def readCHLoop (game : Game) (bo : BO) (fmt : StageDefFileHeaderFormat)
    (sd : StageDef) : Nat → Nat → Nat → RState →
    Except String (List CollisionHeader × RState)
  | 0, _, _, s => .ok ([], s)
  | Nat.succ n, base, i, s =>
    let current := base + COLLISION_HEADER_SIZE * i % 2 ^ 32
    match read_collision_header game bo fmt sd current { s with pos := current } with
    | .error e => .error e
    | .ok (ch, s1) =>
      match readCHLoop game bo fmt sd n base (i + 1) s1 with
      | .error e => .error e
      | .ok (rest, s2) => .ok (ch :: rest, s2)

/-- Mirror of `read_stagedef`: resolve the header schema, read the singular
fields (a failed read aborts via `?`), read every global section
(errors swallowed, fields left default), then read the collision headers
last so they can alias the populated globals. -/
def read_stagedef (game : Game) (bo : BO) (buf : List Nat) :
    Except String (StageDef × RState) :=
  let s0 : RState := ⟨buf, 0, 0, []⟩
  match read_file_header_offsets game bo s0 with
  | .error e => .error e
  | .ok (fmt, s1) =>
  match readSingular (pairOf (readF32 bo)) fmt.magic_number_1_offset 0 s1 with
  | .error e => .error e
  | .ok (m1, s2) =>
  match readSingular (pairOf (readF32 bo)) fmt.magic_number_2_offset 0 s2 with
  | .error e => .error e
  | .ok (m2, s3) =>
  match readSingular (read_vec3 bo) fmt.start_position_ptr_offset ⟨0, 0, 0⟩ s3 with
  | .error e => .error e
  | .ok (startPos, s4) =>
  match readSingular (pairOf (readF32 bo)) fmt.fallout_position_ptr_offset 0 s4 with
  | .error e => .error e
  | .ok (falloutLevel, s5) =>
  let goalsR := readSectionList (Goal.try_from_reader bo) fmt.goal_list_offset s5
  let bumpersR := readSectionList (Bumper.try_from_reader bo) fmt.bumper_list_offset goalsR.2
  let jamabarsR := readSectionList (Jamabar.try_from_reader bo) fmt.jamabar_list_offset bumpersR.2
  let bananasR := readSectionList (Banana.try_from_reader bo) fmt.banana_list_offset jamabarsR.2
  let conesR := readSectionList (ConeCollisionObject.try_from_reader bo) fmt.cone_col_list_offset bananasR.2
  let spheresR := readSectionList (SphereCollisionObject.try_from_reader bo) fmt.sphere_col_list_offset conesR.2
  let cylsR := readSectionList (CylinderCollision.try_from_reader bo) fmt.cyl_col_list_offset spheresR.2
  let falloutsR := readSectionList (FalloutVolume.try_from_reader bo) fmt.fallout_vol_list_offset cylsR.2
  let bgsR := readSectionList (BackgroundModel.try_from_reader bo) fmt.bg_model_list_offset falloutsR.2
  let sd : StageDef :=
    { magic_number_1 := m1
      magic_number_2 := m2
      start_position := startPos
      start_rotation := ⟨0, 0, 0⟩
      fallout_level := falloutLevel
      collision_headers := []
      goals := goalsR.1
      bumpers := bumpersR.1
      jamabars := jamabarsR.1
      bananas := bananasR.1
      cone_collisions := conesR.1
      sphere_collisions := spheresR.1
      cylinder_collisions := cylsR.1
      fallout_volumes := falloutsR.1
      background_models := bgsR.1 }
  match fmt.collision_header_list_offset with
  | FileOffset.CountOffset c o =>
    match readCHLoop game bo fmt sd c o 0 bgsR.2 with
    | .error e => .error e
    | .ok (chs, s6) => .ok ({ sd with collision_headers := chs }, s6)
  | _ => .ok (sd, bgsR.2)

/-- The 32-bit value stored at `off` in `buf` under byte order `bo`. -/
def u32At (bo : BO) (buf : List Nat) (off : Nat) : Nat :=
  u32FromBytes bo ((buf.drop off).take 4)

/-- Characterization of a successful `readU32`. -/
theorem readU32_spec (bo : BO) (s : RState) (h : s.pos + 4 ≤ s.buf.length) :
    readU32 bo s = .ok (u32At bo s.buf s.pos, { s with pos := s.pos + 4 }) := by
  unfold readU32 readBytes u32At
  rw [if_pos h]

/-- Claim C8: `read_count_offset` reads a 32-bit count and then a 32-bit
offset and returns `Unused` exactly when either is zero; otherwise it
returns a `CountOffset` carrying exactly the count (first) and the
absolute offset (second) that were read. -/
theorem c8_read_count_offset_normalization (bo : BO) (s : RState)
    (h : s.pos + 8 ≤ s.buf.length) :
    read_count_offset bo s = .ok
      ((if u32At bo s.buf s.pos = 0 ∨ u32At bo s.buf (s.pos + 4) = 0 then
          FileOffset.Unused
        else
          FileOffset.CountOffset (u32At bo s.buf s.pos) (u32At bo s.buf (s.pos + 4))),
        { s with pos := s.pos + 8 }) := by
  unfold read_count_offset
  rw [readU32_spec bo s (by omega)]
  dsimp only
  rw [readU32_spec bo { s with pos := s.pos + 4 } (by simp; omega)]
  dsimp only
  simp only [Nat.add_assoc]
  norm_num
  split <;> rfl

/-- Witness for C8 at a concrete input: eight bytes `01 02 03 04 05 06 07 08`
read big-endian give a `CountOffset 0x01020304 0x05060708`. -/
theorem c8_read_count_offset_normalization_witness :
    (⟨[1, 2, 3, 4, 5, 6, 7, 8], 0, 0, []⟩ : RState).pos + 8 ≤
        (⟨[1, 2, 3, 4, 5, 6, 7, 8], 0, 0, []⟩ : RState).buf.length ∧
      read_count_offset BO.be ⟨[1, 2, 3, 4, 5, 6, 7, 8], 0, 0, []⟩ =
        .ok (FileOffset.CountOffset 0x01020304 0x05060708,
          ⟨[1, 2, 3, 4, 5, 6, 7, 8], 8, 0, []⟩) := by
  refine ⟨by decide, ?_⟩
  have := c8_read_count_offset_normalization BO.be ⟨[1, 2, 3, 4, 5, 6, 7, 8], 0, 0, []⟩ (by decide)
  simpa [u32At, u32FromBytes] using this

/-- Successful `readBytes` only advances the cursor. -/
theorem readBytes_ok_inv {n : Nat} {s : RState} {bs : List Nat} {s' : RState}
    (h : readBytes n s = .ok (bs, s')) :
    s' = { s with pos := s.pos + n } ∧ s.pos + n ≤ s.buf.length := by
  unfold readBytes at h
  split at h
  · simp only [Except.ok.injEq, Prod.mk.injEq] at h
    exact ⟨h.2.symm, by assumption⟩
  · simp at h

/-- Successful `readU32` advances the cursor by four. -/
theorem readU32_ok_inv {bo : BO} {s : RState} {v : Nat} {s' : RState}
    (h : readU32 bo s = .ok (v, s')) :
    s' = { s with pos := s.pos + 4 } ∧ s.pos + 4 ≤ s.buf.length := by
  unfold readU32 at h
  rcases hb : readBytes 4 s with e | ⟨bs, t⟩ <;> rw [hb] at h
  · simp at h
  · simp only [Except.ok.injEq, Prod.mk.injEq] at h
    obtain ⟨h1, h2⟩ := readBytes_ok_inv hb
    exact ⟨h.2 ▸ h1, h2⟩

/-- Successful `readU16` advances the cursor by two. -/
theorem readU16_ok_inv {bo : BO} {s : RState} {v : Nat} {s' : RState}
    (h : readU16 bo s = .ok (v, s')) :
    s' = { s with pos := s.pos + 2 } ∧ s.pos + 2 ≤ s.buf.length := by
  unfold readU16 at h
  rcases hb : readBytes 2 s with e | ⟨bs, t⟩ <;> rw [hb] at h
  · simp at h
  · simp only [Except.ok.injEq, Prod.mk.injEq] at h
    obtain ⟨h1, h2⟩ := readBytes_ok_inv hb
    exact ⟨h.2 ▸ h1, h2⟩

/-- Successful `read_count_offset` advances the cursor by eight and touches
nothing else. -/
theorem read_count_offset_ok_inv {bo : BO} {s : RState} {v : FileOffset}
    {s' : RState} (h : read_count_offset bo s = .ok (v, s')) :
    s' = { s with pos := s.pos + 8 } := by
  unfold read_count_offset at h
  rcases h1 : readU32 bo s with e | ⟨c, t1⟩ <;> rw [h1] at h
  · simp at h
  · dsimp only at h
    rcases h2 : readU32 bo t1 with e | ⟨o, t2⟩ <;> rw [h2] at h
    · simp at h
    · dsimp only at h
      obtain ⟨e1, -⟩ := readU32_ok_inv h1
      obtain ⟨e2, -⟩ := readU32_ok_inv h2
      subst e1
      subst e2
      split at h
      all_goals simp only [Except.ok.injEq, Prod.mk.injEq] at h
      all_goals rw [← h.2]

/-- Successful `try_seek` only moves the cursor. -/
theorem try_seek_ok_inv {off : FileOffset} {s s' : RState}
    (h : try_seek off s = .ok s') :
    s'.buf = s.buf ∧ s'.nextAid = s.nextAid ∧ s'.warnings = s.warnings := by
  unfold try_seek at h
  rcases off with _ | o | ⟨c, o⟩ <;> simp at h <;> subst h <;> exact ⟨rfl, rfl, rfl⟩

/-- The state component of `read_vec3` preserves buffer, allocation counter
and warnings, whatever the outcome. -/
theorem read_vec3_meta (bo : BO) (s : RState) :
    ((read_vec3 bo s).2).buf = s.buf ∧ ((read_vec3 bo s).2).nextAid = s.nextAid ∧
      ((read_vec3 bo s).2).warnings = s.warnings := by
  unfold read_vec3 readF32
  rcases h1 : readU32 bo s with e | ⟨x, s1⟩ <;> dsimp only
  · exact ⟨rfl, rfl, rfl⟩
  · rcases h2 : readU32 bo s1 with e | ⟨y, s2⟩ <;> dsimp only
    · obtain ⟨e1, -⟩ := readU32_ok_inv h1
      subst e1
      exact ⟨rfl, rfl, rfl⟩
    · rcases h3 : readU32 bo s2 with e | ⟨z, s3⟩ <;> dsimp only
      · obtain ⟨e1, -⟩ := readU32_ok_inv h1
        obtain ⟨e2, -⟩ := readU32_ok_inv h2
        subst e1
        subst e2
        exact ⟨rfl, rfl, rfl⟩
      · obtain ⟨e1, -⟩ := readU32_ok_inv h1
        obtain ⟨e2, -⟩ := readU32_ok_inv h2
        obtain ⟨e3, -⟩ := readU32_ok_inv h3
        subst e1
        subst e2
        subst e3
        exact ⟨rfl, rfl, rfl⟩

/-- The state component of `read_vec3_short` preserves buffer, allocation
counter and warnings, whatever the outcome. -/
theorem read_vec3_short_meta (bo : BO) (s : RState) :
    ((read_vec3_short bo s).2).buf = s.buf ∧
      ((read_vec3_short bo s).2).nextAid = s.nextAid ∧
      ((read_vec3_short bo s).2).warnings = s.warnings := by
  unfold read_vec3_short
  rcases h1 : readU16 bo s with e | ⟨x, s1⟩ <;> dsimp only
  · exact ⟨rfl, rfl, rfl⟩
  · rcases h2 : readU16 bo s1 with e | ⟨y, s2⟩ <;> dsimp only
    · obtain ⟨e1, -⟩ := readU16_ok_inv h1
      subst e1
      exact ⟨rfl, rfl, rfl⟩
    · rcases h3 : readU16 bo s2 with e | ⟨z, s3⟩ <;> dsimp only
      · obtain ⟨e1, -⟩ := readU16_ok_inv h1
        obtain ⟨e2, -⟩ := readU16_ok_inv h2
        subst e1
        subst e2
        exact ⟨rfl, rfl, rfl⟩
      · obtain ⟨e1, -⟩ := readU16_ok_inv h1
        obtain ⟨e2, -⟩ := readU16_ok_inv h2
        obtain ⟨e3, -⟩ := readU16_ok_inv h3
        subst e1
        subst e2
        subst e3
        exact ⟨rfl, rfl, rfl⟩

/-- The goal element decoder preserves buffer, allocation counter and
warnings in its returned state, whatever the outcome. -/
theorem goal_dec_meta (bo : BO) (s : RState) :
    (((Goal.try_from_reader bo) s).2).buf = s.buf ∧
      (((Goal.try_from_reader bo) s).2).nextAid = s.nextAid ∧
      (((Goal.try_from_reader bo) s).2).warnings = s.warnings := by
  unfold Goal.try_from_reader
  rcases h1 : read_vec3 bo s with ⟨e | p, s1⟩ <;> dsimp only <;>
    have m1 := read_vec3_meta bo s <;> rw [h1] at m1 <;> dsimp only at m1
  · exact m1
  · rcases h2 : read_vec3_short bo s1 with ⟨e | r, s2⟩ <;> dsimp only <;>
      have m2 := read_vec3_short_meta bo s1 <;> rw [h2] at m2 <;> dsimp only at m2
    · exact ⟨m2.1.trans m1.1, (m2.2.1).trans m1.2.1, (m2.2.2).trans m1.2.2⟩
    · have m12 : s2.buf = s.buf ∧ s2.nextAid = s.nextAid ∧ s2.warnings = s.warnings :=
        ⟨m2.1.trans m1.1, (m2.2.1).trans m1.2.1, (m2.2.2).trans m1.2.2⟩
      rcases h3 : readU8 s2 with e | ⟨tb, s3⟩ <;> dsimp only
      · exact m12
      · obtain ⟨b3, p3, -, a3, w3⟩ := readU8_ok_inv h3
        have m3 : s3.buf = s.buf ∧ s3.nextAid = s.nextAid ∧ s3.warnings = s.warnings :=
          ⟨b3.trans m12.1, a3.trans m12.2.1, w3.trans m12.2.2⟩
        rcases h4 : goalTypeFromU8 tb with - | gt <;> dsimp only
        · exact m3
        · rcases h5 : readU8 s3 with e | ⟨pad, s4⟩ <;> dsimp only
          · exact m3
          · obtain ⟨b5, p5, -, a5, w5⟩ := readU8_ok_inv h5
            exact ⟨b5.trans m3.1, a5.trans m3.2.1, w5.trans m3.2.2⟩

/-- The list produced by the element loop never exceeds the declared count. -/
theorem readListAux_length_le {T : Type} (dec : RState → Except String T × RState) :
    ∀ (c i : Nat) (s : RState), ((readListAux dec c i s).1).length ≤ c := by
  intro c
  induction c with
  | zero => intro i s; simp [readListAux]
  | succ n ih =>
    intro i s
    unfold readListAux
    rcases hd : dec s with ⟨er | obj, s'⟩ <;> dsimp only
    · exact le_trans (ih (i + 1) _) (Nat.le_succ n)
    · simpa using ih (i + 1) _

/-- Every element decode failure in the loop contributes exactly one
diagnostic: produced length plus emitted warnings account for the whole
declared count. -/
theorem readListAux_warnings_count {T : Type}
    (dec : RState → Except String T × RState)
    (hdecW : ∀ t, ((dec t).2).warnings = t.warnings) :
    ∀ (c i : Nat) (s : RState),
      (((readListAux dec c i s).2).warnings).length + ((readListAux dec c i s).1).length =
        s.warnings.length + c := by
  intro c
  induction c with
  | zero => intro i s; simp [readListAux]
  | succ n ih =>
    intro i s
    unfold readListAux
    rcases hd : dec s with ⟨er | obj, s'⟩ <;> dsimp only
    · have hw := hdecW s
      rw [hd] at hw
      dsimp only at hw
      have := ih (i + 1) { s' with warnings := s'.warnings ++ [er] }
      simp only [List.length_append, List.length_cons] at this ⊢
      rw [this]
      simp [hw]
      omega
    · have hw := hdecW s
      rw [hd] at hw
      dsimp only at hw
      have hthis := ih (i + 1) { s' with nextAid := s'.nextAid + 1 }
      simp only [List.length_cons] at hthis ⊢
      rw [← hw]
      omega

/-- Every object the element loop allocates carries an allocation id at or
above the loop's starting counter (fresh relative to anything older). -/
theorem readListAux_aid_ge {T : Type} (dec : RState → Except String T × RState)
    (hdecA : ∀ t, ((dec t).2).nextAid = t.nextAid) :
    ∀ (c i : Nat) (s : RState),
      ∀ x ∈ (readListAux dec c i s).1, s.nextAid ≤ x.aid := by
  intro c
  induction c with
  | zero => intro i s x hx; simp [readListAux] at hx
  | succ n ih =>
    intro i s x hx
    unfold readListAux at hx
    rcases hd : dec s with ⟨er | obj, s'⟩ <;> rw [hd] at hx <;> dsimp only at hx
    · have ha := hdecA s
      rw [hd] at ha
      dsimp only at ha
      have := ih (i + 1) { s' with warnings := s'.warnings ++ [er] } x hx
      simp only at this
      omega
    · have ha := hdecA s
      rw [hd] at ha
      dsimp only at ha
      rcases List.mem_cons.mp hx with hx | hx
      · subst hx
        simp [ha]
      · have := ih (i + 1) { s' with nextAid := s'.nextAid + 1 } x hx
        simp only at this
        omega

/-- When no element of the loop fails (full length), the assigned indices
are exactly the consecutive loop counters. -/
theorem readListAux_full_indices {T : Type}
    (dec : RState → Except String T × RState) :
    ∀ (c i : Nat) (s : RState),
      ((readListAux dec c i s).1).length = c →
      ((readListAux dec c i s).1).map GlobalStagedefObject.index = List.range' i c := by
  intro c
  induction c with
  | zero => intro i s _; simp [readListAux]
  | succ n ih =>
    intro i s hlen
    unfold readListAux at hlen ⊢
    rcases hd : dec s with ⟨er | obj, s'⟩ <;> rw [hd] at hlen <;> dsimp only at hlen ⊢
    · exfalso
      have := readListAux_length_le dec n (i + 1)
        { s' with warnings := s'.warnings ++ [er] }
      omega
    · simp only [List.length_cons] at hlen
      have := ih (i + 1) { s' with nextAid := s'.nextAid + 1 } (by omega)
      simp only [List.map_cons, this]
      rw [List.range'_succ]

/-- `reindexFrom` keeps the length. -/
theorem reindexFrom_length {T : Type} :
    ∀ (l : List (GlobalStagedefObject T)) (k : Nat),
      (reindexFrom k l).length = l.length := by
  intro l
  induction l with
  | nil => intro k; rfl
  | cons x rest ih => intro k; simp [reindexFrom, ih]

/-- `reindexFrom` replaces each entry's index by its position (shifted by
the starting counter) and keeps object and identity. -/
theorem reindexFrom_getElem? {T : Type} :
    ∀ (l : List (GlobalStagedefObject T)) (k j : Nat),
      (reindexFrom k l)[j]? = (l[j]?).map (fun o => { o with index := k + j }) := by
  intro l
  induction l with
  | nil => intro k j; simp [reindexFrom]
  | cons x rest ih =>
    intro k j
    cases j with
    | zero => simp [reindexFrom]
    | succ j' =>
      simp only [reindexFrom, List.getElem?_cons_succ, ih (k + 1) j']
      congr 1
      funext o
      simp [Nat.add_assoc, Nat.add_comm 1 j']

/-- The indices assigned by `reindexFrom` are consecutive from the start
counter. -/
theorem reindexFrom_map_index {T : Type} :
    ∀ (l : List (GlobalStagedefObject T)) (k : Nat),
      (reindexFrom k l).map GlobalStagedefObject.index = List.range' k l.length := by
  intro l
  induction l with
  | nil => intro k; rfl
  | cons x rest ih =>
    intro k
    simp only [reindexFrom, List.map_cons, ih (k + 1), List.length_cons]
    rw [List.range'_succ]

/-- On a list whose stored indices are consecutive from `base`, filtering
for indices at or above `k` is dropping the first `k - base` entries. -/
theorem filter_index_ge_eq_drop {T : Type} :
    ∀ (l : List (GlobalStagedefObject T)) (base k : Nat),
      l.map GlobalStagedefObject.index = List.range' base l.length →
      l.filter (fun g => decide (k ≤ g.index)) = l.drop (k - base) := by
  intro l
  induction l with
  | nil => intro base k _; simp
  | cons x rest ih =>
    intro base k h
    simp only [List.length_cons, List.map_cons, List.range'_succ, List.cons.injEq] at h
    obtain ⟨hx, hrest⟩ := h
    by_cases hk : k ≤ base
    · have h0 : k - base = 0 := by omega
      rw [h0, List.drop_zero, List.filter_cons]
      rw [if_pos (by simp [hx]; omega)]
      rw [ih (base + 1) k hrest]
      rw [show k - (base + 1) = 0 from by omega, List.drop_zero]
    · rw [List.filter_cons, if_neg (by simp [hx]; omega)]
      rw [ih (base + 1) k hrest]
      rw [show k - base = (k - (base + 1)) + 1 from by omega, List.drop_succ_cons]

/-- Alias branch of `get_global_objs_from_local_list`: when the global list
exists, the offset difference is non-negative and inside the 32-bit byte
extent, the selection is the filtered, truncated, re-numbered global list,
and no diagnostic is emitted. -/
theorem get_global_alias {T : Type} (size m L gc G : Nat)
    (glist : List (GlobalStagedefObject T))
    (hGL : G ≤ L) (hlt : L - G < gc * size % 2 ^ 32) :
    get_global_objs_from_local_list size m L (FileOffset.CountOffset gc G) glist =
      (some (reindexFrom 0 ((glist.filter
        (fun g => decide ((L - G) / size ≤ g.index))).take m)), []) := by
  unfold get_global_objs_from_local_list
  dsimp only
  unfold try_get_offset_difference
  rw [if_neg (by omega)]
  dsimp only
  rw [if_pos hlt]

/-- Fallback branch of `get_global_objs_from_local_list`: no global list. -/
theorem get_global_none_unused {T : Type} (size m L : Nat)
    (glist : List (GlobalStagedefObject T)) :
    get_global_objs_from_local_list size m L FileOffset.Unused glist =
      (none, ["Failed global object retrieval: no global list"]) := rfl

/-- Fallback branch of `get_global_objs_from_local_list`: the local list
starts before the global list (negative offset difference). -/
theorem get_global_none_neg {T : Type} (size m L gc G : Nat)
    (glist : List (GlobalStagedefObject T)) (hGL : L < G) :
    get_global_objs_from_local_list size m L (FileOffset.CountOffset gc G) glist =
      (none, ["Failed global object retrieval: objects before list"]) := by
  unfold get_global_objs_from_local_list
  dsimp only
  unfold try_get_offset_difference
  rw [if_pos (by omega)]

/-- Fallback branch of `get_global_objs_from_local_list`: the offset
difference is at or beyond the (32-bit) byte extent of the global list. -/
theorem get_global_none_oob {T : Type} (size m L gc G : Nat)
    (glist : List (GlobalStagedefObject T)) (hGL : G ≤ L)
    (hge : gc * size % 2 ^ 32 ≤ L - G) :
    get_global_objs_from_local_list size m L (FileOffset.CountOffset gc G) glist =
      (none, ["Failed global object retrieval: local list larger than global list"]) := by
  unfold get_global_objs_from_local_list
  dsimp only
  unfold try_get_offset_difference
  rw [if_neg (by omega)]
  dsimp only
  rw [if_neg (by omega)]

/-- Full description of `read_local_object_list` on the alias path. -/
theorem read_local_alias_spec {T : Type} (size : Nat)
    (dec : RState → Except String T × RState) (bo : BO)
    (fieldOff : FileOffset) (gc G m L : Nat)
    (glist : List (GlobalStagedefObject T)) (s s1 s2 : RState)
    (hseek : try_seek fieldOff s = .ok s1)
    (hread : read_count_offset bo s1 = .ok (FileOffset.CountOffset m L, s2))
    (hGL : G ≤ L) (hlt : L - G < gc * size % 2 ^ 32) :
    read_local_object_list size dec bo fieldOff (FileOffset.CountOffset gc G) glist s =
      .ok (reindexFrom 0 ((glist.filter
        (fun g => decide ((L - G) / size ≤ g.index))).take m), { s2 with pos := L }) := by
  unfold read_local_object_list
  rw [hseek]
  dsimp only
  rw [hread]
  dsimp only
  rw [get_global_alias size m L gc G glist hGL hlt]
  dsimp only
  simp

/-- Claim C1, amended: the byte-extent bound of the alias test is the
32-bit product the source computes, `diff < (|G| * S) % 2 ^ 32`, not the
mathematical product.  Under that test: if a collision header's local
count+offset field reads as `(m, L)`, the object kind's global list is
present as `(gc, G)` with per-element size `size`, the global list's
stored indices are `0..|G|-1` in list order, and `diff = L - G` is
non-negative and below the 32-bit byte extent, then the header's list
consists of handles to the very same shared records as the global list's
entries starting at global index `diff / size`, taken in global-index
order, re-numbered `0..m-1`, with object values and shared identity left
unchanged. -/
theorem c1_alias_reexposes_global_slice {T : Type} (size : Nat)
    (dec : RState → Except String T × RState) (bo : BO) (fieldOff : FileOffset)
    (gc G m L : Nat) (glist : List (GlobalStagedefObject T)) (s s1 s2 : RState)
    (hseek : try_seek fieldOff s = .ok s1)
    (hread : read_count_offset bo s1 = .ok (FileOffset.CountOffset m L, s2))
    (hidx : glist.map GlobalStagedefObject.index = List.range glist.length)
    (hGL : G ≤ L) (hlt : L - G < gc * size % 2 ^ 32) :
    ∃ res,
      read_local_object_list size dec bo fieldOff (FileOffset.CountOffset gc G) glist s =
        .ok (res, { s2 with pos := L }) ∧
      res.length = min m (glist.length - (L - G) / size) ∧
      ∀ j, j < m →
        res[j]? = (glist[(L - G) / size + j]?).map (fun o => { o with index := j }) := by
  have hfd := filter_index_ge_eq_drop glist 0 ((L - G) / size)
    (by simpa [List.range_eq_range'] using hidx)
  simp only [Nat.sub_zero] at hfd
  refine ⟨_, read_local_alias_spec size dec bo fieldOff gc G m L glist s s1 s2
    hseek hread hGL hlt, ?_, ?_⟩
  · rw [reindexFrom_length, List.length_take, hfd, List.length_drop]
  · intro j hj
    rw [reindexFrom_getElem?, hfd, List.getElem?_take, if_pos hj, List.getElem?_drop]
    simp

/-- Counterexample to claim C1 as frozen (with the mathematical product
`|G| * S` as the byte extent): with a global goal list declared as
`(gc, G) = (214748365, 8)` the 32-bit byte extent wraps to `4`, so a local
goal list read as `(m, L) = (1, 12)` has `diff = 4 ≥ 0` and
`diff < |G| * S = 4294967300` mathematically, yet the source takes the
fallback path and decodes a fresh record (allocation id `100`, the next
free id) instead of re-exposing the shared global record (allocation id
`7`). -/
theorem c1_alias_counterexample :
    (read_local_object_list GOAL_SIZE (Goal.try_from_reader BO.be) BO.be
        (FileOffset.OffsetOnly 0) (FileOffset.CountOffset 214748365 8)
        [⟨⟨⟨0, 0, 0⟩, ⟨0, 0, 0⟩, GoalType.Blue⟩, 7, 0⟩]
        ⟨[0, 0, 0, 1, 0, 0, 0, 12, 0, 0, 0, 0] ++ List.replicate 20 0, 0, 100, []⟩).map
        (fun p => p.1.map GlobalStagedefObject.aid) = .ok [100] ∧
      (8 : Nat) ≤ 12 ∧ (12 - 8 : Nat) < 214748365 * GOAL_SIZE ∧
      (Except.ok [100] : Except String (List Nat)) ≠ .ok [7] := by
  refine ⟨by rfl, by norm_num, by norm_num [GOAL_SIZE], by simp⟩

/-- Witness for the amended C1 at a concrete input: aliasing a two-element
global goal list from index 0 with local count 2 re-exposes both records. -/
theorem c1_alias_reexposes_global_slice_witness :
    ∃ res,
      read_local_object_list GOAL_SIZE (Goal.try_from_reader BO.be) BO.be
          (FileOffset.OffsetOnly 0) (FileOffset.CountOffset 2 64)
          [⟨⟨⟨0, 0, 0⟩, ⟨0, 0, 0⟩, GoalType.Blue⟩, 3, 0⟩,
            ⟨⟨⟨0, 0, 1⟩, ⟨0, 0, 0⟩, GoalType.Red⟩, 4, 1⟩]
          ⟨[0, 0, 0, 2, 0, 0, 0, 64] ++ List.replicate 64 0, 0, 10, []⟩ =
        .ok (res,
          { buf := [0, 0, 0, 2, 0, 0, 0, 64] ++ List.replicate 64 0, pos := 64,
            nextAid := 10, warnings := [] }) ∧
      res.length = min 2 (2 - (64 - 64) / GOAL_SIZE) ∧
      ∀ j, j < 2 →
        res[j]? = (([⟨⟨⟨0, 0, 0⟩, ⟨0, 0, 0⟩, GoalType.Blue⟩, 3, 0⟩,
            ⟨⟨⟨0, 0, 1⟩, ⟨0, 0, 0⟩, GoalType.Red⟩, 4, 1⟩] :
            List (GlobalStagedefObject Goal))[(64 - 64) / GOAL_SIZE + j]?).map
          (fun o => { o with index := j }) := by
  have h := c1_alias_reexposes_global_slice GOAL_SIZE (Goal.try_from_reader BO.be)
    BO.be (FileOffset.OffsetOnly 0) 2 64 2 64
    [⟨⟨⟨0, 0, 0⟩, ⟨0, 0, 0⟩, GoalType.Blue⟩, 3, 0⟩,
      ⟨⟨⟨0, 0, 1⟩, ⟨0, 0, 0⟩, GoalType.Red⟩, 4, 1⟩]
    ⟨[0, 0, 0, 2, 0, 0, 0, 64] ++ List.replicate 64 0, 0, 10, []⟩
    ⟨[0, 0, 0, 2, 0, 0, 0, 64] ++ List.replicate 64 0, 0, 10, []⟩
    ⟨[0, 0, 0, 2, 0, 0, 0, 64] ++ List.replicate 64 0, 8, 10, []⟩
    (by rfl) (by rfl) (by decide) (by decide) (by decide)
  exact h

/-- Claim C10: when the alias test passes but fewer than `m` global
entries have index at or after the computed start index, the aliased
local list silently holds exactly those entries — its length is the number
of global entries from the start index to the end, strictly less than `m`
— with no error returned and no diagnostic emitted. -/
theorem c10_alias_shortfall_silent {T : Type} (size : Nat)
    (dec : RState → Except String T × RState) (bo : BO) (fieldOff : FileOffset)
    (gc G m L : Nat) (glist : List (GlobalStagedefObject T)) (s s1 s2 : RState)
    (hseek : try_seek fieldOff s = .ok s1)
    (hread : read_count_offset bo s1 = .ok (FileOffset.CountOffset m L, s2))
    (hGL : G ≤ L) (hlt : L - G < gc * size % 2 ^ 32)
    (hshort : (glist.filter (fun g => decide ((L - G) / size ≤ g.index))).length < m) :
    ∃ res,
      read_local_object_list size dec bo fieldOff (FileOffset.CountOffset gc G) glist s =
        .ok (res, { s2 with pos := L }) ∧
      ({ s2 with pos := L } : RState).warnings = s.warnings ∧
      res.length = (glist.filter (fun g => decide ((L - G) / size ≤ g.index))).length ∧
      res.length < m := by
  obtain ⟨hb1, hn1, hw1⟩ := try_seek_ok_inv hseek
  have hs2 := read_count_offset_ok_inv hread
  refine ⟨_, read_local_alias_spec size dec bo fieldOff gc G m L glist s s1 s2
    hseek hread hGL hlt, ?_, ?_, ?_⟩
  · subst hs2
    simpa using hw1
  · rw [reindexFrom_length, List.take_of_length_le (le_of_lt hshort)]
  · rw [reindexFrom_length, List.take_of_length_le (le_of_lt hshort)]
    exact hshort

/-- Witness for C10 at a concrete input: a local count of `3` over a
single-entry global list aliases just that one entry, silently. -/
theorem c10_alias_shortfall_silent_witness :
    ∃ res,
      read_local_object_list GOAL_SIZE (Goal.try_from_reader BO.be) BO.be
          (FileOffset.OffsetOnly 0) (FileOffset.CountOffset 2 64)
          [⟨⟨⟨0, 0, 0⟩, ⟨0, 0, 0⟩, GoalType.Blue⟩, 3, 0⟩]
          ⟨[0, 0, 0, 3, 0, 0, 0, 64] ++ List.replicate 64 0, 0, 10, []⟩ =
        .ok (res,
          { buf := [0, 0, 0, 3, 0, 0, 0, 64] ++ List.replicate 64 0, pos := 64,
            nextAid := 10, warnings := [] }) ∧
      ({ buf := [0, 0, 0, 3, 0, 0, 0, 64] ++ List.replicate 64 0, pos := 64,
          nextAid := 10, warnings := [] } : RState).warnings = [] ∧
      res.length = (([⟨⟨⟨0, 0, 0⟩, ⟨0, 0, 0⟩, GoalType.Blue⟩, 3, 0⟩] :
        List (GlobalStagedefObject Goal)).filter
          (fun g => decide ((64 - 64) / GOAL_SIZE ≤ g.index))).length ∧
      res.length < 3 := by
  have h := c10_alias_shortfall_silent GOAL_SIZE (Goal.try_from_reader BO.be)
    BO.be (FileOffset.OffsetOnly 0) 2 64 3 64
    [⟨⟨⟨0, 0, 0⟩, ⟨0, 0, 0⟩, GoalType.Blue⟩, 3, 0⟩]
    ⟨[0, 0, 0, 3, 0, 0, 0, 64] ++ List.replicate 64 0, 0, 10, []⟩
    ⟨[0, 0, 0, 3, 0, 0, 0, 64] ++ List.replicate 64 0, 0, 10, []⟩
    ⟨[0, 0, 0, 3, 0, 0, 0, 64] ++ List.replicate 64 0, 8, 10, []⟩
    (by rfl) (by rfl) (by decide) (by decide) (by decide)
  exact h

/-- On any fallback outcome of the aliasing reconciler the local list is
re-decoded from the local offset, with the retrieval diagnostic appended. -/
theorem read_local_fallback_eq {T : Type} (size : Nat)
    (dec : RState → Except String T × RState) (bo : BO)
    (fieldOff gco : FileOffset) (m L : Nat)
    (glist : List (GlobalStagedefObject T)) (s s1 s2 : RState) (w : String)
    (hseek : try_seek fieldOff s = .ok s1)
    (hread : read_count_offset bo s1 = .ok (FileOffset.CountOffset m L, s2))
    (hg : get_global_objs_from_local_list size m L gco glist = (none, [w])) :
    read_local_object_list size dec bo fieldOff gco glist s =
      read_stagedef_list dec (FileOffset.CountOffset m L)
        { s2 with pos := L, warnings := s2.warnings ++ [w] } := by
  unfold read_local_object_list
  rw [hseek]
  dsimp only
  rw [hread]
  dsimp only
  rw [hg]

/-- Claim C2: when the alias test fails — negative offset difference, a
difference at or beyond the global byte extent `|G| * S`, or no global
list for the kind — the header's list is decoded as `m` fresh elements
from the local offset per the section-reader policy (one entry per
successful element, one diagnostic per failure, plus the one retrieval
diagnostic), and none of the records aliases a global record. -/
theorem c2_fallback_decodes_fresh {T : Type} (size : Nat)
    (dec : RState → Except String T × RState) (bo : BO)
    (fieldOff gco : FileOffset) (gc G m L : Nat)
    (glist : List (GlobalStagedefObject T)) (s s1 s2 : RState)
    (hdecW : ∀ t, ((dec t).2).warnings = t.warnings)
    (hdecA : ∀ t, ((dec t).2).nextAid = t.nextAid)
    (hseek : try_seek fieldOff s = .ok s1)
    (hread : read_count_offset bo s1 = .ok (FileOffset.CountOffset m L, s2))
    (haids : ∀ g ∈ glist, g.aid < s.nextAid)
    (hfail : gco = FileOffset.Unused ∨ (gco = FileOffset.CountOffset gc G ∧ L < G) ∨
      (gco = FileOffset.CountOffset gc G ∧ G ≤ L ∧ gc * size ≤ L - G)) :
    ∃ res s' w,
      read_local_object_list size dec bo fieldOff gco glist s = .ok (res, s') ∧
      read_stagedef_list dec (FileOffset.CountOffset m L)
        { s2 with pos := L, warnings := s2.warnings ++ [w] } = .ok (res, s') ∧
      (∀ x ∈ res, ∀ g ∈ glist, x.aid ≠ g.aid) ∧
      s'.warnings.length + res.length = s.warnings.length + 1 + m := by
  obtain ⟨hb1, hn1, hw1⟩ := try_seek_ok_inv hseek
  have hs2 := read_count_offset_ok_inv hread
  have hg : ∃ w, get_global_objs_from_local_list size m L gco glist = (none, [w]) := by
    rcases hfail with hU | ⟨hC, hneg⟩ | ⟨hC, hGL, hge⟩
    · subst hU
      exact ⟨_, get_global_none_unused size m L glist⟩
    · subst hC
      exact ⟨_, get_global_none_neg size m L gc G glist hneg⟩
    · subst hC
      exact ⟨_, get_global_none_oob size m L gc G glist hGL
        (le_trans (Nat.mod_le _ _) hge)⟩
  obtain ⟨w, hg⟩ := hg
  have heq := read_local_fallback_eq size dec bo fieldOff gco m L glist s s1 s2 w
    hseek hread hg
  refine ⟨(readListAux dec m 0
      { s2 with pos := L, warnings := s2.warnings ++ [w] }).1,
    (readListAux dec m 0 { s2 with pos := L, warnings := s2.warnings ++ [w] }).2,
    w, ?_, ?_, ?_, ?_⟩
  · rw [heq]
    rfl
  · rfl
  · intro x hx g hgl
    have hge := readListAux_aid_ge dec hdecA m 0
      { s2 with pos := L, warnings := s2.warnings ++ [w] } x hx
    dsimp only at hge
    have hA2 : s2.nextAid = s.nextAid := by
      rw [hs2]
      simpa using hn1
    have := haids g hgl
    omega
  · have hcount := readListAux_warnings_count dec hdecW m 0
      { s2 with pos := L, warnings := s2.warnings ++ [w] }
    simp only [List.length_append, List.length_cons, List.length_nil] at hcount
    have hW2 : s2.warnings = s.warnings := by
      rw [hs2]
      simpa using hw1
    rw [← hW2]
    omega

/-- Witness for C2 at a concrete input: a local goal list at offset 12
before a global list at offset 100 (negative difference) decodes one fresh
record whose identity differs from the global record's. -/
theorem c2_fallback_decodes_fresh_witness :
    ∃ res s' w,
      read_local_object_list GOAL_SIZE (Goal.try_from_reader BO.be) BO.be
          (FileOffset.OffsetOnly 0) (FileOffset.CountOffset 1 100)
          [⟨⟨⟨0, 0, 0⟩, ⟨0, 0, 0⟩, GoalType.Blue⟩, 5, 0⟩]
          ⟨[0, 0, 0, 1, 0, 0, 0, 12, 0, 0, 0, 0] ++ List.replicate 20 0, 0, 6, []⟩ =
        .ok (res, s') ∧
      read_stagedef_list (Goal.try_from_reader BO.be) (FileOffset.CountOffset 1 12)
        { (⟨[0, 0, 0, 1, 0, 0, 0, 12, 0, 0, 0, 0] ++ List.replicate 20 0, 8, 6, []⟩ :
            RState) with pos := 12, warnings := ([] : List String) ++ [w] } =
        .ok (res, s') ∧
      (∀ x ∈ res, ∀ g ∈ ([⟨⟨⟨0, 0, 0⟩, ⟨0, 0, 0⟩, GoalType.Blue⟩, 5, 0⟩] :
        List (GlobalStagedefObject Goal)), x.aid ≠ g.aid) ∧
      s'.warnings.length + res.length = ([] : List String).length + 1 + 1 := by
  exact c2_fallback_decodes_fresh GOAL_SIZE (Goal.try_from_reader BO.be) BO.be
    (FileOffset.OffsetOnly 0) (FileOffset.CountOffset 1 100) 1 100 1 12
    [⟨⟨⟨0, 0, 0⟩, ⟨0, 0, 0⟩, GoalType.Blue⟩, 5, 0⟩]
    ⟨[0, 0, 0, 1, 0, 0, 0, 12, 0, 0, 0, 0] ++ List.replicate 20 0, 0, 6, []⟩
    ⟨[0, 0, 0, 1, 0, 0, 0, 12, 0, 0, 0, 0] ++ List.replicate 20 0, 0, 6, []⟩
    ⟨[0, 0, 0, 1, 0, 0, 0, 12, 0, 0, 0, 0] ++ List.replicate 20 0, 8, 6, []⟩
    (fun t => (goal_dec_meta BO.be t).2.2)
    (fun t => (goal_dec_meta BO.be t).2.1)
    (by rfl) (by rfl) (by decide)
    (Or.inr (Or.inl ⟨rfl, by norm_num⟩))

/-- Claim C4: reading a list of `n` declared elements never aborts — it
returns a list of at most `n` entries, each failed element is skipped, and
the emitted diagnostics account exactly for the missing entries: final
warnings plus produced length equal starting warnings plus `n`. -/
theorem c4_element_failures_skipped {T : Type}
    (dec : RState → Except String T × RState)
    (hdecW : ∀ t, ((dec t).2).warnings = t.warnings)
    (c o : Nat) (s : RState) :
    ∃ vec s',
      read_stagedef_list dec (FileOffset.CountOffset c o) s = .ok (vec, s') ∧
      vec.length ≤ c ∧
      s'.warnings.length + vec.length = s.warnings.length + c := by
  refine ⟨_, _, rfl, readListAux_length_le dec c 0 _, ?_⟩
  have := readListAux_warnings_count dec hdecW c 0 { s with pos := o }
  simpa using this

/-- Witness for C4 at a concrete input: two declared goals, the first with
an invalid goal-type byte; the read succeeds with one element and one
diagnostic. -/
theorem c4_element_failures_skipped_witness :
    ∃ vec s',
      read_stagedef_list (Goal.try_from_reader BO.be) (FileOffset.CountOffset 2 0)
          ⟨List.replicate 18 0 ++ [5] ++ List.replicate 20 0, 0, 0, []⟩ =
        .ok (vec, s') ∧
      vec.length ≤ 2 ∧
      s'.warnings.length + vec.length =
        (⟨List.replicate 18 0 ++ [5] ++ List.replicate 20 0, 0, 0, []⟩ :
          RState).warnings.length + 2 := by
  exact c4_element_failures_skipped (Goal.try_from_reader BO.be)
    (fun t => (goal_dec_meta BO.be t).2.2) 2 0
    ⟨List.replicate 18 0 ++ [5] ++ List.replicate 20 0, 0, 0, []⟩

/-- Claim C5 (amended: the contiguity of a global list's indices holds
when every declared element decodes; when an element is skipped the
surviving entries keep their original loop indices, leaving gaps.  The
aliased view of a collision header is always re-numbered `0..M-1`): a
fully-decoded global list of length `n` carries indices exactly `0..n-1`
in list order, and any aliased selection returned by the reconciler
carries indices `0..M-1`. -/
theorem c5_view_indices_zero_based {T : Type}
    (dec : RState → Except String T × RState) (c o : Nat) (s : RState)
    (size m L : Nat) (gco : FileOffset)
    (glist : List (GlobalStagedefObject T)) :
    (∀ vec s', read_stagedef_list dec (FileOffset.CountOffset c o) s = .ok (vec, s') →
      vec.length = c → vec.map GlobalStagedefObject.index = List.range c) ∧
    (∀ res ws, get_global_objs_from_local_list size m L gco glist = (some res, ws) →
      res.map GlobalStagedefObject.index = List.range res.length) := by
  constructor
  · intro vec s' h hlen
    unfold read_stagedef_list at h
    injection h with h
    have hv := congrArg Prod.fst h
    dsimp only at hv
    rw [← hv] at hlen ⊢
    rw [List.range_eq_range']
    exact readListAux_full_indices dec c 0 _ hlen
  · intro res ws h
    unfold get_global_objs_from_local_list at h
    rcases gco with _ | go | ⟨gcc, go⟩ <;> dsimp only at h
    · simp at h
    · simp at h
    · rcases hd : try_get_offset_difference L go with e | diff <;> rw [hd] at h <;>
        dsimp only at h
      · simp at h
      · split at h
        · simp only [Prod.mk.injEq, Option.some.injEq] at h
          obtain ⟨h1, -⟩ := h
          subst h1
          rw [reindexFrom_map_index, reindexFrom_length, List.range_eq_range']
        · simp at h

/-- Counterexample to claim C5 as frozen: a decode in which the first of
two declared goals fails (invalid goal-type byte `5`) produces a
one-element list whose sole index is `1`, not the contiguous zero-based
`[0]`. -/
theorem c5_indices_counterexample :
    (read_stagedef_list (Goal.try_from_reader BO.be) (FileOffset.CountOffset 2 0)
        ⟨List.replicate 18 0 ++ [5] ++ List.replicate 20 0, 0, 0, []⟩).map
        (fun p => p.1.map GlobalStagedefObject.index) = .ok [1] ∧
      ([1] : List Nat) ≠ List.range 1 := ⟨by rfl, by decide⟩

/-- Witness for the amended C5 at concrete inputs: a clean two-goal decode
carries indices `[0, 1]`, and a concrete aliased selection re-numbers to
`[0]`. -/
theorem c5_view_indices_zero_based_witness :
    ([⟨⟨⟨0, 0, 0⟩, ⟨0, 0, 0⟩, GoalType.Blue⟩, 0, 0⟩,
        ⟨⟨⟨0, 0, 0⟩, ⟨0, 0, 0⟩, GoalType.Blue⟩, 1, 1⟩] :
      List (GlobalStagedefObject Goal)).map GlobalStagedefObject.index =
        List.range 2 ∧
    ([⟨⟨⟨0, 0, 0⟩, ⟨0, 0, 0⟩, GoalType.Blue⟩, 7, 0⟩] :
      List (GlobalStagedefObject Goal)).map GlobalStagedefObject.index =
        List.range ([⟨⟨⟨0, 0, 0⟩, ⟨0, 0, 0⟩, GoalType.Blue⟩, 7, 0⟩] :
          List (GlobalStagedefObject Goal)).length := by
  constructor
  · exact (c5_view_indices_zero_based (Goal.try_from_reader BO.be) 2 0
      ⟨List.replicate 40 0, 0, 0, []⟩ GOAL_SIZE 1 64 (FileOffset.CountOffset 1 64)
      [⟨⟨⟨0, 0, 0⟩, ⟨0, 0, 0⟩, GoalType.Blue⟩, 7, 3⟩]).1
      [⟨⟨⟨0, 0, 0⟩, ⟨0, 0, 0⟩, GoalType.Blue⟩, 0, 0⟩,
        ⟨⟨⟨0, 0, 0⟩, ⟨0, 0, 0⟩, GoalType.Blue⟩, 1, 1⟩]
      ⟨List.replicate 40 0, 40, 2, []⟩ (by rfl) (by rfl)
  · exact (c5_view_indices_zero_based (Goal.try_from_reader BO.be) 2 0
      ⟨List.replicate 40 0, 0, 0, []⟩ GOAL_SIZE 1 64 (FileOffset.CountOffset 1 64)
      [⟨⟨⟨0, 0, 0⟩, ⟨0, 0, 0⟩, GoalType.Blue⟩, 7, 3⟩]).2
      [⟨⟨⟨0, 0, 0⟩, ⟨0, 0, 0⟩, GoalType.Blue⟩, 7, 0⟩] [] (by rfl)

/-- The byte stored at `i` in `buf` (as `readU8` computes it). -/
def byteAt (buf : List Nat) (i : Nat) : Nat :=
  ((buf.drop i).take 1).headI

/-- Characterization of a successful `readU8`. -/
theorem readU8_spec (s : RState) (h : s.pos < s.buf.length) :
    readU8 s = .ok (byteAt s.buf s.pos, { s with pos := s.pos + 1 }) := by
  unfold readU8 readBytes byteAt
  rw [if_pos (by omega)]

/-- A nonempty suffix decomposes as its first byte followed by the rest. -/
theorem drop_eq_byteAt_cons {buf : List Nat} {i : Nat} (h : i < buf.length) :
    buf.drop i = byteAt buf i :: buf.drop (i + 1) := by
  unfold byteAt
  rcases hd : buf.drop i with - | ⟨a, t⟩
  · exfalso
    have := congrArg List.length hd
    simp at this
    omega
  · have : buf.drop (i + 1) = t := by
      rw [show i + 1 = i + 1 from rfl, ← List.drop_drop, hd]
      rfl
    simp [this]

/-- The name-scanning loop, when the first NUL lies `k` bytes ahead of the
cursor (within the buffer) and fuel exceeds `k`, returns the bytes up to
and including that NUL and leaves the cursor one past it. -/
theorem readNullTerminatedFuel_spec :
    ∀ (k : Nat) (s : RState) (f : Nat), k < f →
      s.pos + k < s.buf.length →
      byteAt s.buf (s.pos + k) = 0 →
      (∀ j, j < k → byteAt s.buf (s.pos + j) ≠ 0) →
      readNullTerminatedFuel f s =
        (.ok ((s.buf.drop s.pos).take (k + 1)), { s with pos := s.pos + k + 1 }) := by
  intro k
  induction k with
  | zero =>
    intro s f hf hlt hnull _
    rcases f with - | f
    · omega
    · unfold readNullTerminatedFuel
      rw [readU8_spec s (by omega)]
      dsimp only
      rw [if_pos (by simpa using hnull)]
      rw [drop_eq_byteAt_cons (by omega : s.pos < s.buf.length)]
      simp only [List.take_succ_cons, List.take_zero]
  | succ k ih =>
    intro s f hf hlt hnull hnz
    rcases f with - | f
    · omega
    · unfold readNullTerminatedFuel
      rw [readU8_spec s (by omega)]
      dsimp only
      rw [if_neg (by simpa using hnz 0 (by omega))]
      rw [ih { s with pos := s.pos + 1 } f (by omega)
        (by simp; omega)
        (by simp only []; rw [show s.pos + 1 + k = s.pos + (k + 1) from by omega]; exact hnull)
        (by
          intro j hj
          simp only []
          rw [show s.pos + 1 + j = s.pos + (j + 1) from by omega]
          exact hnz (j + 1) (by omega))]
      dsimp only
      rw [drop_eq_byteAt_cons (by omega : s.pos < s.buf.length)]
      rw [List.take_succ_cons]
      refine congrArg₂ Prod.mk rfl ?_
      rw [show s.pos + 1 + k + 1 = s.pos + (k + 1) + 1 from by omega]

/-- Claim C9 (amended: the returned name includes the terminating NUL
byte): `read_model_name_from_offset` reads a 32-bit offset `off`, jumps to
it, returns the bytes stored there up to and including the first NUL, and
restores the cursor: the final position is exactly 4 bytes past where the
call began, wherever the name bytes lie. -/
theorem c9_indirect_name_reads_and_restores (bo : BO) (s : RState)
    (off k : Nat) (h4 : s.pos + 4 ≤ s.buf.length)
    (hoff : u32At bo s.buf s.pos = off)
    (hlt : off + k < s.buf.length)
    (hnull : byteAt s.buf (off + k) = 0)
    (hnz : ∀ j, j < k → byteAt s.buf (off + j) ≠ 0) :
    read_model_name_from_offset bo s =
      (.ok ((s.buf.drop off).take (k + 1)), { s with pos := s.pos + 4 }) := by
  unfold read_model_name_from_offset
  rw [readU32_spec bo s h4, hoff]
  dsimp only
  unfold readNullTerminated
  rw [readNullTerminatedFuel_spec k _ _ (by simp; omega) (by simpa using hlt)
    (by simpa using hnull) (by simpa using hnz)]

/-- Counterexample to claim C9 as frozen (name = the NUL-terminated byte
sequence, without its terminator): for a name record `[65, 0]` ("A") the
source returns both bytes, terminator included, not `[65]`. -/
theorem c9_indirect_name_counterexample :
    read_model_name_from_offset BO.be
        ⟨[0, 0, 0, 8, 99, 99, 99, 99, 65, 0], 0, 0, []⟩ =
      (.ok [65, 0], ⟨[0, 0, 0, 8, 99, 99, 99, 99, 65, 0], 4, 0, []⟩) ∧
      ([65, 0] : List Nat) ≠ [65] := ⟨by rfl, by decide⟩

/-- Witness for the amended C9 at a concrete input. -/
theorem c9_indirect_name_reads_and_restores_witness :
    read_model_name_from_offset BO.be
        ⟨[0, 0, 0, 8, 99, 99, 99, 99, 65, 0], 0, 0, []⟩ =
      (.ok ((([0, 0, 0, 8, 99, 99, 99, 99, 65, 0] : List Nat).drop 8).take (1 + 1)),
        { (⟨[0, 0, 0, 8, 99, 99, 99, 99, 65, 0], 0, 0, []⟩ : RState) with
          pos := 0 + 4 }) := by
  exact c9_indirect_name_reads_and_restores BO.be
    ⟨[0, 0, 0, 8, 99, 99, 99, 99, 65, 0], 0, 0, []⟩ 8 1
    (by decide) (by decide) (by decide) (by decide)
    (by intro j hj; interval_cases j; decide)

/-- Reading a collision header does not depend on the game variant: the
source's schema constructor matches the game against a lone binding
pattern. -/
theorem read_collision_header_smbdx (bo : BO) (fmt : StageDefFileHeaderFormat)
    (sd : StageDef) (off : Nat) (s : RState) :
    read_collision_header Game.SMBDX bo fmt sd off s =
      read_collision_header Game.SMB2 bo fmt sd off s := rfl

/-- The collision-header loop behaves identically for SMBDX and SMB2. -/
theorem readCHLoop_smbdx (bo : BO) (fmt : StageDefFileHeaderFormat)
    (sd : StageDef) :
    ∀ (c base i : Nat) (s : RState),
      readCHLoop Game.SMBDX bo fmt sd c base i s =
        readCHLoop Game.SMB2 bo fmt sd c base i s := by
  intro c
  induction c with
  | zero => intro base i s; rfl
  | succ n ih =>
    intro base i s
    unfold readCHLoop
    dsimp only
    rw [read_collision_header_smbdx]
    rcases hx : read_collision_header Game.SMB2 bo fmt sd
        (base + COLLISION_HEADER_SIZE * i % 2 ^ 32)
        { s with pos := base + COLLISION_HEADER_SIZE * i % 2 ^ 32 } with e | ⟨ch, s1⟩ <;>
      dsimp only
    rw [ih base (i + 1) s1]

/-- Decoding as SMBDX is decoding as SMB2: the variant match shares one
arm for both. -/
theorem read_stagedef_smbdx (bo : BO) (buf : List Nat) :
    read_stagedef Game.SMBDX bo buf = read_stagedef Game.SMB2 bo buf := by
  unfold read_stagedef
  dsimp only
  rw [show read_file_header_offsets Game.SMBDX bo ⟨buf, 0, 0, []⟩ =
    read_file_header_offsets Game.SMB2 bo ⟨buf, 0, 0, []⟩ from rfl]
  rcases h0 : read_file_header_offsets Game.SMB2 bo ⟨buf, 0, 0, []⟩ with e | ⟨fmt, s1⟩ <;>
    dsimp only
  rcases h1 : readSingular (pairOf (readF32 bo)) fmt.magic_number_1_offset 0 s1 with
    e | ⟨m1, s2⟩ <;> dsimp only
  rcases h2 : readSingular (pairOf (readF32 bo)) fmt.magic_number_2_offset 0 s2 with
    e | ⟨m2, s3⟩ <;> dsimp only
  rcases h3 : readSingular (read_vec3 bo) fmt.start_position_ptr_offset ⟨0, 0, 0⟩ s3 with
    e | ⟨sp, s4⟩ <;> dsimp only
  rcases h4 : readSingular (pairOf (readF32 bo)) fmt.fallout_position_ptr_offset 0 s4 with
    e | ⟨fl, s5⟩ <;> dsimp only
  rcases hco : fmt.collision_header_list_offset with - | o | ⟨c, o⟩ <;> dsimp only
  rw [readCHLoop_smbdx]

/-- Claim C3 (amended: only the SMB1 variant fails fast — the source's
`unimplemented!()` aborts schema resolution before any byte is read,
producing no partial StageDef; the SMBDX variant is not rejected but is
decoded exactly as SMB2, with the SMB2 schema table): decoding as SMB1
fails identically for every buffer and byte order, and decoding as SMBDX
equals decoding as SMB2. -/
theorem c3_variant_gating :
    (∀ (bo : BO) (buf : List Nat),
      read_stagedef Game.SMB1 bo buf = .error "not implemented") ∧
    (∀ (bo : BO) (buf : List Nat),
      read_stagedef Game.SMBDX bo buf = read_stagedef Game.SMB2 bo buf) :=
  ⟨fun _ _ => rfl, read_stagedef_smbdx⟩

set_option maxRecDepth 100000 in
/-- Counterexample to claim C3 as frozen: decoding with the SMBDX variant
(not SMB2) does not fail with an unsupported-variant error — it succeeds
on a plain 216-byte zero buffer, using the SMB2 schema. -/
theorem c3_smbdx_not_rejected_counterexample :
    (read_stagedef Game.SMBDX BO.be (List.replicate 216 0)).toOption.isSome = true := by
  decide

/-- Whether eight zero bytes sit at `off` (a fully zeroed count/offset
header field). -/
abbrev zeroedAt (buf : List Nat) (off : Nat) : Prop :=
  (buf.drop off).take 8 = List.replicate 8 0

/-- `readFieldCO` on a present (offset-only) schema slot is the plain
count/offset read at that slot. -/
theorem readFieldCO_eqn (bo : BO) (off : Nat) (s : RState) :
    readFieldCO bo (FileOffset.OffsetOnly off) s =
      read_count_offset bo { s with pos := off } := rfl

/-- `readFieldOff` on a present (offset-only) schema slot is the plain
offset read at that slot. -/
theorem readFieldOff_eqn (bo : BO) (off : Nat) (s : RState) :
    readFieldOff bo (FileOffset.OffsetOnly off) s =
      read_offset bo { s with pos := off } := rfl

/-- A successful `read_count_offset` needs eight bytes at the cursor. -/
theorem read_count_offset_ok_bound {bo : BO} {s : RState} {v : FileOffset}
    {s' : RState} (h : read_count_offset bo s = .ok (v, s')) :
    s.pos + 8 ≤ s.buf.length := by
  unfold read_count_offset at h
  rcases h1 : readU32 bo s with e | ⟨c, t1⟩ <;> rw [h1] at h
  · simp at h
  · dsimp only at h
    rcases h2 : readU32 bo t1 with e | ⟨o, t2⟩ <;> rw [h2] at h
    · simp at h
    · obtain ⟨e1, b1⟩ := readU32_ok_inv h1
      obtain ⟨e2, b2⟩ := readU32_ok_inv h2
      subst e1
      simp only at b2
      omega

/-- Successful `read_offset` advances the cursor by four. -/
theorem read_offset_ok_inv {bo : BO} {s : RState} {v : FileOffset}
    {s' : RState} (h : read_offset bo s = .ok (v, s')) :
    s' = { s with pos := s.pos + 4 } := by
  unfold read_offset at h
  rcases h1 : readU32 bo s with e | ⟨o, t1⟩ <;> rw [h1] at h
  · simp at h
  · dsimp only at h
    simp only [Except.ok.injEq, Prod.mk.injEq] at h
    obtain ⟨e1, -⟩ := readU32_ok_inv h1
    rw [← h.2, e1]

/-- A successful header-slot count/offset read keeps the buffer. -/
theorem readFieldCO_buf {bo : BO} {off : Nat} {s : RState} {v : FileOffset}
    {s' : RState}
    (h : readFieldCO bo (FileOffset.OffsetOnly off) s = .ok (v, s')) :
    s'.buf = s.buf := by
  rw [readFieldCO_eqn] at h
  rw [read_count_offset_ok_inv h]

/-- A successful header-slot offset read keeps the buffer. -/
theorem readFieldOff_buf {bo : BO} {off : Nat} {s : RState} {v : FileOffset}
    {s' : RState}
    (h : readFieldOff bo (FileOffset.OffsetOnly off) s = .ok (v, s')) :
    s'.buf = s.buf := by
  rw [readFieldOff_eqn] at h
  rw [read_offset_ok_inv h]

/-- A fully zeroed count/offset slot reads as `Unused`. -/
theorem readFieldCO_zeroed {bo : BO} {off : Nat} {s : RState} {v : FileOffset}
    {s' : RState}
    (h : readFieldCO bo (FileOffset.OffsetOnly off) s = .ok (v, s'))
    (hz : zeroedAt s.buf off) : v = FileOffset.Unused := by
  rw [readFieldCO_eqn] at h
  have hb := read_count_offset_ok_bound h
  simp only at hb
  rw [c8_read_count_offset_normalization bo { s with pos := off } (by simpa using hb)] at h
  simp only [Except.ok.injEq, Prod.mk.injEq] at h
  obtain ⟨h1, -⟩ := h
  rw [← h1]
  rw [if_pos]
  left
  have h44 : (s.buf.drop off).take 4 = [0, 0, 0, 0] := by
    have hts : (s.buf.drop off).take 4 = ((s.buf.drop off).take 8).take 4 := by
      simp [List.take_take]
    rw [hts, hz]
    rfl
  unfold u32At
  rw [h44]
  cases bo <;> rfl

/-- A section whose location is `Unused` contributes nothing: the list
stays empty and the reader state untouched. -/
theorem readSectionList_unused {T : Type}
    (dec : RState → Except String T × RState) (s : RState) :
    readSectionList dec FileOffset.Unused s = ([], s) := rfl

/-- Structure of a successful decode: the header schema resolved, and each
section field whose resolved location is `Unused` left the corresponding
output list at its empty default. -/
theorem read_stagedef_ok_inv {game : Game} {bo : BO} {buf : List Nat}
    {sd : StageDef} {sfin : RState}
    (h : read_stagedef game bo buf = .ok (sd, sfin)) :
    ∃ fmt s1, read_file_header_offsets game bo ⟨buf, 0, 0, []⟩ = .ok (fmt, s1) ∧
      (fmt.goal_list_offset = FileOffset.Unused → sd.goals = []) ∧
      (fmt.bumper_list_offset = FileOffset.Unused → sd.bumpers = []) ∧
      (fmt.jamabar_list_offset = FileOffset.Unused → sd.jamabars = []) ∧
      (fmt.banana_list_offset = FileOffset.Unused → sd.bananas = []) ∧
      (fmt.cone_col_list_offset = FileOffset.Unused → sd.cone_collisions = []) ∧
      (fmt.sphere_col_list_offset = FileOffset.Unused → sd.sphere_collisions = []) ∧
      (fmt.cyl_col_list_offset = FileOffset.Unused → sd.cylinder_collisions = []) ∧
      (fmt.fallout_vol_list_offset = FileOffset.Unused → sd.fallout_volumes = []) ∧
      (fmt.bg_model_list_offset = FileOffset.Unused → sd.background_models = []) ∧
      (fmt.collision_header_list_offset = FileOffset.Unused →
        sd.collision_headers = []) := by
  unfold read_stagedef at h
  dsimp only at h
  rcases h0 : read_file_header_offsets game bo ⟨buf, 0, 0, []⟩ with e | ⟨fmt, s1⟩ <;>
    rw [h0] at h <;> dsimp only at h
  · simp at h
  · rcases h1 : readSingular (pairOf (readF32 bo)) fmt.magic_number_1_offset 0 s1 with
      e | ⟨m1, s2⟩ <;> rw [h1] at h <;> dsimp only at h
    · simp at h
    · rcases h2 : readSingular (pairOf (readF32 bo)) fmt.magic_number_2_offset 0 s2 with
        e | ⟨m2, s3⟩ <;> rw [h2] at h <;> dsimp only at h
      · simp at h
      · rcases h3 : readSingular (read_vec3 bo) fmt.start_position_ptr_offset
          ⟨0, 0, 0⟩ s3 with e | ⟨sp, s4⟩ <;> rw [h3] at h <;> dsimp only at h
        · simp at h
        · rcases h4 : readSingular (pairOf (readF32 bo))
            fmt.fallout_position_ptr_offset 0 s4 with e | ⟨fl, s5⟩ <;>
            rw [h4] at h <;> dsimp only at h
          · simp at h
          · rcases hco : fmt.collision_header_list_offset with - | o | ⟨c, o⟩ <;>
              rw [hco] at h <;> dsimp only at h
            · simp only [Except.ok.injEq, Prod.mk.injEq] at h
              obtain ⟨hsd, -⟩ := h
              subst hsd
              refine ⟨fmt, s1, rfl, ?_, ?_, ?_, ?_, ?_, ?_, ?_, ?_, ?_, ?_⟩ <;>
                intro hu <;> simp [hu, readSectionList_unused]
            · simp only [Except.ok.injEq, Prod.mk.injEq] at h
              obtain ⟨hsd, -⟩ := h
              subst hsd
              refine ⟨fmt, s1, rfl, ?_, ?_, ?_, ?_, ?_, ?_, ?_, ?_, ?_, ?_⟩ <;>
                intro hu
              · simp [hu, readSectionList_unused]
              · simp [hu, readSectionList_unused]
              · simp [hu, readSectionList_unused]
              · simp [hu, readSectionList_unused]
              · simp [hu, readSectionList_unused]
              · simp [hu, readSectionList_unused]
              · simp [hu, readSectionList_unused]
              · simp [hu, readSectionList_unused]
              · simp [hu, readSectionList_unused]
              · rw [hco] at hu <;> simp at hu
            · split at h
              · simp at h
              · simp only [Except.ok.injEq, Prod.mk.injEq] at h
                obtain ⟨hsd, -⟩ := h
                subst hsd
                refine ⟨fmt, s1, rfl, ?_, ?_, ?_, ?_, ?_, ?_, ?_, ?_, ?_, ?_⟩ <;>
                  intro hu
                · simp [hu, readSectionList_unused]
                · simp [hu, readSectionList_unused]
                · simp [hu, readSectionList_unused]
                · simp [hu, readSectionList_unused]
                · simp [hu, readSectionList_unused]
                · simp [hu, readSectionList_unused]
                · simp [hu, readSectionList_unused]
                · simp [hu, readSectionList_unused]
                · simp [hu, readSectionList_unused]
                · rw [hco] at hu <;> simp at hu

/-- After a successful header resolution: the sphere-collision field is
never read (it stays `Unused`), and any list field whose eight header
bytes are zero resolves to `Unused`. -/
theorem rfho_zeroed_unused {game : Game} {bo : BO} {s : RState}
    {fmt : StageDefFileHeaderFormat} {sfin : RState}
    (h : read_file_header_offsets game bo s = .ok (fmt, sfin)) :
    fmt.sphere_col_list_offset = FileOffset.Unused ∧
    (zeroedAt s.buf 0x8 → fmt.collision_header_list_offset = FileOffset.Unused) ∧
    (zeroedAt s.buf 0x18 → fmt.goal_list_offset = FileOffset.Unused) ∧
    (zeroedAt s.buf 0x20 → fmt.bumper_list_offset = FileOffset.Unused) ∧
    (zeroedAt s.buf 0x28 → fmt.jamabar_list_offset = FileOffset.Unused) ∧
    (zeroedAt s.buf 0x30 → fmt.banana_list_offset = FileOffset.Unused) ∧
    (zeroedAt s.buf 0x38 → fmt.cone_col_list_offset = FileOffset.Unused) ∧
    (zeroedAt s.buf 0x48 → fmt.cyl_col_list_offset = FileOffset.Unused) ∧
    (zeroedAt s.buf 0x50 → fmt.fallout_vol_list_offset = FileOffset.Unused) ∧
    (zeroedAt s.buf 0x58 → fmt.bg_model_list_offset = FileOffset.Unused) := by
  unfold read_file_header_offsets at h
  rcases game with - | - | - <;> dsimp only at h
  · simp at h
  · rcases h1 : readFieldCO bo SMB2_FILE_HEADER_FORMAT.collision_header_list_offset s with
        e | ⟨v1, t1⟩ <;> rw [h1] at h <;> dsimp only at h
    · simp at h
    · rcases h2 : readFieldOff bo SMB2_FILE_HEADER_FORMAT.start_position_ptr_offset t1 with
          e | ⟨v2, t2⟩ <;> rw [h2] at h <;> dsimp only at h
      · simp at h
      · rcases h3 : readFieldOff bo SMB2_FILE_HEADER_FORMAT.fallout_position_ptr_offset t2 with
            e | ⟨v3, t3⟩ <;> rw [h3] at h <;> dsimp only at h
        · simp at h
        · rcases h4 : readFieldCO bo SMB2_FILE_HEADER_FORMAT.goal_list_offset t3 with
              e | ⟨v4, t4⟩ <;> rw [h4] at h <;> dsimp only at h
          · simp at h
          · rcases h5 : readFieldCO bo SMB2_FILE_HEADER_FORMAT.bumper_list_offset t4 with
                e | ⟨v5, t5⟩ <;> rw [h5] at h <;> dsimp only at h
            · simp at h
            · rcases h6 : readFieldCO bo SMB2_FILE_HEADER_FORMAT.jamabar_list_offset t5 with
                  e | ⟨v6, t6⟩ <;> rw [h6] at h <;> dsimp only at h
              · simp at h
              · rcases h7 : readFieldCO bo SMB2_FILE_HEADER_FORMAT.banana_list_offset t6 with
                    e | ⟨v7, t7⟩ <;> rw [h7] at h <;> dsimp only at h
                · simp at h
                · rcases h8 : readFieldCO bo SMB2_FILE_HEADER_FORMAT.cone_col_list_offset t7 with
                      e | ⟨v8, t8⟩ <;> rw [h8] at h <;> dsimp only at h
                  · simp at h
                  · rcases h9 : readFieldCO bo SMB2_FILE_HEADER_FORMAT.cyl_col_list_offset t8 with
                        e | ⟨v9, t9⟩ <;> rw [h9] at h <;> dsimp only at h
                    · simp at h
                    · rcases h10 : readFieldCO bo SMB2_FILE_HEADER_FORMAT.fallout_vol_list_offset t9 with
                          e | ⟨v10, t10⟩ <;> rw [h10] at h <;> dsimp only at h
                      · simp at h
                      · rcases h11 : readFieldCO bo SMB2_FILE_HEADER_FORMAT.bg_model_list_offset t10 with
                            e | ⟨v11, t11⟩ <;> rw [h11] at h <;> dsimp only at h
                        · simp at h
                        · rcases h12 : readFieldCO bo SMB2_FILE_HEADER_FORMAT.fg_model_list_offset t11 with
                              e | ⟨v12, t12⟩ <;> rw [h12] at h <;> dsimp only at h
                          · simp at h
                          · rcases h13 : readFieldCO bo SMB2_FILE_HEADER_FORMAT.reflective_model_list_offset t12 with
                                e | ⟨v13, t13⟩ <;> rw [h13] at h <;> dsimp only at h
                            · simp at h
                            · rcases h14 : readFieldCO bo SMB2_FILE_HEADER_FORMAT.model_instance_list_offset t13 with
                                  e | ⟨v14, t14⟩ <;> rw [h14] at h <;> dsimp only at h
                              · simp at h
                              · rcases h15 : readFieldCO bo SMB2_FILE_HEADER_FORMAT.model_ptr_a_list_offset t14 with
                                    e | ⟨v15, t15⟩ <;> rw [h15] at h <;> dsimp only at h
                                · simp at h
                                · rcases h16 : readFieldCO bo SMB2_FILE_HEADER_FORMAT.model_ptr_b_list_offset t15 with
                                      e | ⟨v16, t16⟩ <;> rw [h16] at h <;> dsimp only at h
                                  · simp at h
                                  · rcases h17 : readFieldCO bo SMB2_FILE_HEADER_FORMAT.switch_list_offset t16 with
                                        e | ⟨v17, t17⟩ <;> rw [h17] at h <;> dsimp only at h
                                    · simp at h
                                    · rcases h18 : readFieldOff bo SMB2_FILE_HEADER_FORMAT.fog_anim_ptr_offset t17 with
                                          e | ⟨v18, t18⟩ <;> rw [h18] at h <;> dsimp only at h
                                      · simp at h
                                      · rcases h19 : readFieldCO bo SMB2_FILE_HEADER_FORMAT.wormhole_list_offset t18 with
                                            e | ⟨v19, t19⟩ <;> rw [h19] at h <;> dsimp only at h
                                        · simp at h
                                        · rcases h20 : readFieldOff bo SMB2_FILE_HEADER_FORMAT.fog_ptr_offset t19 with
                                              e | ⟨v20, t20⟩ <;> rw [h20] at h <;> dsimp only at h
                                          · simp at h
                                          · rcases h21 : readFieldOff bo SMB2_FILE_HEADER_FORMAT.mystery_3_ptr_offset t20 with
                                                e | ⟨v21, t21⟩ <;> rw [h21] at h <;> dsimp only at h
                                            · simp at h
                                            · simp only [Except.ok.injEq, Prod.mk.injEq] at h
                                              obtain ⟨hfmt, -⟩ := h
                                              subst hfmt
                                              have hb1 : t1.buf = s.buf := readFieldCO_buf h1
                                              have hb2 : t2.buf = s.buf := (readFieldOff_buf h2).trans hb1
                                              have hb3 : t3.buf = s.buf := (readFieldOff_buf h3).trans hb2
                                              have hb4 : t4.buf = s.buf := (readFieldCO_buf h4).trans hb3
                                              have hb5 : t5.buf = s.buf := (readFieldCO_buf h5).trans hb4
                                              have hb6 : t6.buf = s.buf := (readFieldCO_buf h6).trans hb5
                                              have hb7 : t7.buf = s.buf := (readFieldCO_buf h7).trans hb6
                                              have hb8 : t8.buf = s.buf := (readFieldCO_buf h8).trans hb7
                                              have hb9 : t9.buf = s.buf := (readFieldCO_buf h9).trans hb8
                                              have hb10 : t10.buf = s.buf := (readFieldCO_buf h10).trans hb9
                                              refine ⟨rfl, ?_, ?_, ?_, ?_, ?_, ?_, ?_, ?_, ?_⟩
                                              · intro hz
                                                exact readFieldCO_zeroed h1 hz
                                              · intro hz
                                                exact readFieldCO_zeroed h4 (by rw [hb3]; exact hz)
                                              · intro hz
                                                exact readFieldCO_zeroed h5 (by rw [hb4]; exact hz)
                                              · intro hz
                                                exact readFieldCO_zeroed h6 (by rw [hb5]; exact hz)
                                              · intro hz
                                                exact readFieldCO_zeroed h7 (by rw [hb6]; exact hz)
                                              · intro hz
                                                exact readFieldCO_zeroed h8 (by rw [hb7]; exact hz)
                                              · intro hz
                                                exact readFieldCO_zeroed h9 (by rw [hb8]; exact hz)
                                              · intro hz
                                                exact readFieldCO_zeroed h10 (by rw [hb9]; exact hz)
                                              · intro hz
                                                exact readFieldCO_zeroed h11 (by rw [hb10]; exact hz)
  · rcases h1 : readFieldCO bo SMB2_FILE_HEADER_FORMAT.collision_header_list_offset s with
        e | ⟨v1, t1⟩ <;> rw [h1] at h <;> dsimp only at h
    · simp at h
    · rcases h2 : readFieldOff bo SMB2_FILE_HEADER_FORMAT.start_position_ptr_offset t1 with
          e | ⟨v2, t2⟩ <;> rw [h2] at h <;> dsimp only at h
      · simp at h
      · rcases h3 : readFieldOff bo SMB2_FILE_HEADER_FORMAT.fallout_position_ptr_offset t2 with
            e | ⟨v3, t3⟩ <;> rw [h3] at h <;> dsimp only at h
        · simp at h
        · rcases h4 : readFieldCO bo SMB2_FILE_HEADER_FORMAT.goal_list_offset t3 with
              e | ⟨v4, t4⟩ <;> rw [h4] at h <;> dsimp only at h
          · simp at h
          · rcases h5 : readFieldCO bo SMB2_FILE_HEADER_FORMAT.bumper_list_offset t4 with
                e | ⟨v5, t5⟩ <;> rw [h5] at h <;> dsimp only at h
            · simp at h
            · rcases h6 : readFieldCO bo SMB2_FILE_HEADER_FORMAT.jamabar_list_offset t5 with
                  e | ⟨v6, t6⟩ <;> rw [h6] at h <;> dsimp only at h
              · simp at h
              · rcases h7 : readFieldCO bo SMB2_FILE_HEADER_FORMAT.banana_list_offset t6 with
                    e | ⟨v7, t7⟩ <;> rw [h7] at h <;> dsimp only at h
                · simp at h
                · rcases h8 : readFieldCO bo SMB2_FILE_HEADER_FORMAT.cone_col_list_offset t7 with
                      e | ⟨v8, t8⟩ <;> rw [h8] at h <;> dsimp only at h
                  · simp at h
                  · rcases h9 : readFieldCO bo SMB2_FILE_HEADER_FORMAT.cyl_col_list_offset t8 with
                        e | ⟨v9, t9⟩ <;> rw [h9] at h <;> dsimp only at h
                    · simp at h
                    · rcases h10 : readFieldCO bo SMB2_FILE_HEADER_FORMAT.fallout_vol_list_offset t9 with
                          e | ⟨v10, t10⟩ <;> rw [h10] at h <;> dsimp only at h
                      · simp at h
                      · rcases h11 : readFieldCO bo SMB2_FILE_HEADER_FORMAT.bg_model_list_offset t10 with
                            e | ⟨v11, t11⟩ <;> rw [h11] at h <;> dsimp only at h
                        · simp at h
                        · rcases h12 : readFieldCO bo SMB2_FILE_HEADER_FORMAT.fg_model_list_offset t11 with
                              e | ⟨v12, t12⟩ <;> rw [h12] at h <;> dsimp only at h
                          · simp at h
                          · rcases h13 : readFieldCO bo SMB2_FILE_HEADER_FORMAT.reflective_model_list_offset t12 with
                                e | ⟨v13, t13⟩ <;> rw [h13] at h <;> dsimp only at h
                            · simp at h
                            · rcases h14 : readFieldCO bo SMB2_FILE_HEADER_FORMAT.model_instance_list_offset t13 with
                                  e | ⟨v14, t14⟩ <;> rw [h14] at h <;> dsimp only at h
                              · simp at h
                              · rcases h15 : readFieldCO bo SMB2_FILE_HEADER_FORMAT.model_ptr_a_list_offset t14 with
                                    e | ⟨v15, t15⟩ <;> rw [h15] at h <;> dsimp only at h
                                · simp at h
                                · rcases h16 : readFieldCO bo SMB2_FILE_HEADER_FORMAT.model_ptr_b_list_offset t15 with
                                      e | ⟨v16, t16⟩ <;> rw [h16] at h <;> dsimp only at h
                                  · simp at h
                                  · rcases h17 : readFieldCO bo SMB2_FILE_HEADER_FORMAT.switch_list_offset t16 with
                                        e | ⟨v17, t17⟩ <;> rw [h17] at h <;> dsimp only at h
                                    · simp at h
                                    · rcases h18 : readFieldOff bo SMB2_FILE_HEADER_FORMAT.fog_anim_ptr_offset t17 with
                                          e | ⟨v18, t18⟩ <;> rw [h18] at h <;> dsimp only at h
                                      · simp at h
                                      · rcases h19 : readFieldCO bo SMB2_FILE_HEADER_FORMAT.wormhole_list_offset t18 with
                                            e | ⟨v19, t19⟩ <;> rw [h19] at h <;> dsimp only at h
                                        · simp at h
                                        · rcases h20 : readFieldOff bo SMB2_FILE_HEADER_FORMAT.fog_ptr_offset t19 with
                                              e | ⟨v20, t20⟩ <;> rw [h20] at h <;> dsimp only at h
                                          · simp at h
                                          · rcases h21 : readFieldOff bo SMB2_FILE_HEADER_FORMAT.mystery_3_ptr_offset t20 with
                                                e | ⟨v21, t21⟩ <;> rw [h21] at h <;> dsimp only at h
                                            · simp at h
                                            · simp only [Except.ok.injEq, Prod.mk.injEq] at h
                                              obtain ⟨hfmt, -⟩ := h
                                              subst hfmt
                                              have hb1 : t1.buf = s.buf := readFieldCO_buf h1
                                              have hb2 : t2.buf = s.buf := (readFieldOff_buf h2).trans hb1
                                              have hb3 : t3.buf = s.buf := (readFieldOff_buf h3).trans hb2
                                              have hb4 : t4.buf = s.buf := (readFieldCO_buf h4).trans hb3
                                              have hb5 : t5.buf = s.buf := (readFieldCO_buf h5).trans hb4
                                              have hb6 : t6.buf = s.buf := (readFieldCO_buf h6).trans hb5
                                              have hb7 : t7.buf = s.buf := (readFieldCO_buf h7).trans hb6
                                              have hb8 : t8.buf = s.buf := (readFieldCO_buf h8).trans hb7
                                              have hb9 : t9.buf = s.buf := (readFieldCO_buf h9).trans hb8
                                              have hb10 : t10.buf = s.buf := (readFieldCO_buf h10).trans hb9
                                              refine ⟨rfl, ?_, ?_, ?_, ?_, ?_, ?_, ?_, ?_, ?_⟩
                                              · intro hz
                                                exact readFieldCO_zeroed h1 hz
                                              · intro hz
                                                exact readFieldCO_zeroed h4 (by rw [hb3]; exact hz)
                                              · intro hz
                                                exact readFieldCO_zeroed h5 (by rw [hb4]; exact hz)
                                              · intro hz
                                                exact readFieldCO_zeroed h6 (by rw [hb5]; exact hz)
                                              · intro hz
                                                exact readFieldCO_zeroed h7 (by rw [hb6]; exact hz)
                                              · intro hz
                                                exact readFieldCO_zeroed h8 (by rw [hb7]; exact hz)
                                              · intro hz
                                                exact readFieldCO_zeroed h9 (by rw [hb8]; exact hz)
                                              · intro hz
                                                exact readFieldCO_zeroed h10 (by rw [hb9]; exact hz)
                                              · intro hz
                                                exact readFieldCO_zeroed h11 (by rw [hb10]; exact hz)

/-- Claim C6: a section whose count/offset header field is fully zeroed is
normalized to `Unused`, and a successful decode leaves that section's
output list at its empty default — absence of a section is not an error
(the section step itself never fails the decode; the sphere-collision
section, whose header field the source never reads, is always empty). -/
theorem c6_absent_sections_empty {game : Game} {bo : BO} {buf : List Nat}
    {sd : StageDef} {sfin : RState}
    (h : read_stagedef game bo buf = .ok (sd, sfin)) :
    (zeroedAt buf 0x18 → sd.goals = []) ∧
    (zeroedAt buf 0x20 → sd.bumpers = []) ∧
    (zeroedAt buf 0x28 → sd.jamabars = []) ∧
    (zeroedAt buf 0x30 → sd.bananas = []) ∧
    (zeroedAt buf 0x38 → sd.cone_collisions = []) ∧
    (zeroedAt buf 0x48 → sd.cylinder_collisions = []) ∧
    (zeroedAt buf 0x50 → sd.fallout_volumes = []) ∧
    (zeroedAt buf 0x58 → sd.background_models = []) ∧
    (zeroedAt buf 0x8 → sd.collision_headers = []) ∧
    sd.sphere_collisions = [] := by
  obtain ⟨fmt, s1, h0, hg, hb, hj, hba, hcone, hsph, hcyl, hfv, hbg, hch⟩ :=
    read_stagedef_ok_inv h
  obtain ⟨zsph, zch, zg, zb, zj, zba, zcone, zcyl, zfv, zbg⟩ :=
    rfho_zeroed_unused h0
  exact ⟨fun hz => hg (zg hz), fun hz => hb (zb hz), fun hz => hj (zj hz),
    fun hz => hba (zba hz), fun hz => hcone (zcone hz), fun hz => hcyl (zcyl hz),
    fun hz => hfv (zfv hz), fun hz => hbg (zbg hz), fun hz => hch (zch hz),
    hsph zsph⟩

/-- The stage definition decoded from the all-zero 216-byte buffer: every
section field is zeroed, so every list is empty and every singular field
zero. -/
def c6StageDef : StageDef :=
  { magic_number_1 := 0, magic_number_2 := 0, start_position := ⟨0, 0, 0⟩,
    start_rotation := ⟨0, 0, 0⟩, fallout_level := 0, collision_headers := [],
    goals := [], bumpers := [], jamabars := [], bananas := [],
    cone_collisions := [], sphere_collisions := [], cylinder_collisions := [],
    fallout_volumes := [], background_models := [] }

set_option maxRecDepth 100000 in
/-- Witness for C6 at a concrete input: the all-zero 216-byte buffer has
every section field fully zeroed; the decode succeeds and every section is
empty. -/
theorem c6_absent_sections_empty_witness :
    read_stagedef Game.SMB2 BO.be (List.replicate 216 0) =
      .ok (c6StageDef, ⟨List.replicate 216 0, 4, 0, []⟩) ∧
    zeroedAt (List.replicate 216 0) 0x18 ∧
    c6StageDef.goals = [] ∧ c6StageDef.bananas = [] ∧
    c6StageDef.collision_headers = [] ∧ c6StageDef.sphere_collisions = [] := by
  have h : read_stagedef Game.SMB2 BO.be (List.replicate 216 0) =
      .ok (c6StageDef, ⟨List.replicate 216 0, 4, 0, []⟩) := by rfl
  obtain ⟨hg, hb, hj, hba, -, -, -, -, hch, hsph⟩ := c6_absent_sections_empty h
  exact ⟨h, by decide, hg (by decide), hba (by decide), hch (by decide), hsph⟩

/-- Claim C7 (amended: only a singular field that cannot be *located* — an
`Unused` offset refused by `try_seek` — is skipped with its default; once
the seek succeeds, a short read or seek-past-end on the singular field
aborts the whole decode via `?`, it does not default the field): if the
header resolves and both magic numbers read, a failing start-position read
makes the entire decode return that error, while an `Unused` singular
location always yields the default without error. -/
theorem c7_singular_field_short_read_aborts {game : Game} {bo : BO}
    {buf : List Nat} {fmt : StageDefFileHeaderFormat} {s1 : RState}
    {m1 : Nat} {s2 : RState} {m2 : Nat} {s3 : RState} {e : String}
    (h0 : read_file_header_offsets game bo ⟨buf, 0, 0, []⟩ = .ok (fmt, s1))
    (h1 : readSingular (pairOf (readF32 bo)) fmt.magic_number_1_offset 0 s1 =
      .ok (m1, s2))
    (h2 : readSingular (pairOf (readF32 bo)) fmt.magic_number_2_offset 0 s2 =
      .ok (m2, s3))
    (hfail : readSingular (read_vec3 bo) fmt.start_position_ptr_offset
      ⟨0, 0, 0⟩ s3 = .error e) :
    read_stagedef game bo buf = .error e ∧
    ∀ (T : Type) (read : RState → Except String T × RState) (dflt : T)
      (t : RState),
      readSingular read FileOffset.Unused dflt t = .ok (dflt, t) := by
  constructor
  · unfold read_stagedef
    dsimp only
    rw [h0]
    dsimp only
    rw [h1]
    dsimp only
    rw [h2]
    dsimp only
    rw [hfail]
  · intro T read dflt t
    rfl

/-- A 256-byte zero buffer whose start-position pointer (bytes 0x10..0x13,
big-endian) points at 0x10000, far past the end of the buffer. -/
def c7buf : List Nat := (List.replicate 256 0).set 0x11 1

set_option maxRecDepth 100000 in
/-- Counterexample to claim C7 as frozen: with the start-position pointer
aimed past the end of the buffer the seek succeeds, the vector read short-
reads, and the whole decode aborts with that error — the rest of the
decode does not complete and the field is not defaulted. -/
theorem c7_short_read_aborts_counterexample :
    read_stagedef Game.SMB2 BO.be c7buf = .error "failed to fill whole buffer" := by
  rfl

set_option maxRecDepth 100000 in
/-- Witness for the amended C7 at the concrete buffer `c7buf`. -/
theorem c7_singular_field_short_read_aborts_witness :
    (read_stagedef Game.SMB2 BO.be c7buf = .error "failed to fill whole buffer" ∧
      ∀ (T : Type) (read : RState → Except String T × RState) (dflt : T)
        (t : RState),
        readSingular read FileOffset.Unused dflt t = .ok (dflt, t)) ∧
    readSingular (pairOf (readF32 BO.be)) FileOffset.Unused 0 ⟨[], 0, 0, []⟩ =
      .ok (0, ⟨[], 0, 0, []⟩) := by
  have h := @c7_singular_field_short_read_aborts Game.SMB2 BO.be c7buf
    _ _ _ _ _ _ _ (by rfl) (by rfl) (by rfl) (by rfl)
  exact ⟨h, h.2 Nat (pairOf (readF32 BO.be)) 0 ⟨[], 0, 0, []⟩⟩
